import Mathlib

/-!
# libssusb: driver registry and selection state machine

A shallow embedding of `src/ssusb.c` (with `src/include/ssusb-types.h`) and the
properties of its registry and selection controller.

Conventions of the embedding.

* A C string (`const char *`, not NULL) is the list of its bytes; reading past
  the end of the list reads the terminating NUL, so a string is empty exactly
  when `headD 0` of the list is `0`.  A pointer that may be NULL is an `Option`.
* The three file-scope variables `_initialized`, `_driver_list` and
  `_device_driver` are the first three fields of `State`.  The linked list of
  `ssusb_driver_t` nodes is a `List`; a pointer to a (constant) catalog entry is
  the entry itself.
* Whatever a driver's `init`/`deinit` touches is the field `world`; a driver
  function maps a world to its `int` result and the next world.
* `calls` is a ghost log of the lifecycle calls made so far, oldest first.
* `assert` aborts the process: a function that can reach one returns `none`
  when the assertion fails.
* `malloc` is an oracle: `malloc_ok k` says whether the `k`-th allocation of
  one `ssusb_init` call (counted from 0) succeeds.
-/

namespace Ssusb

/-- The status codes of `ssusb-types.h`, in declaration order. -/
inductive ssusb_ret_t where
  | SSUSB_OK
  | SSUSB_UNITITIALIZED
  | SSUSB_ARG_NULL
  | SSUSB_ARG_EMPTY_STRING
  | SSUSB_INSUFFICIENT_MEMORY
  | SSUSB_INIT_ERROR
  | SSUSB_SELECT_INVALID_NAME
  | SSUSB_SELECT_NOT_FOUND
  | SSUSB_SELECT_INIT_ERROR
  | SSUSB_DESELECT_DEINIT_ERROR
  | SSUSB_DEVICE_READ_ERROR
  | SSUSB_DEVICE_DOWNLOAD_ERROR
  | SSUSB_DEVICE_UPLOAD_ERROR
  | SSUSB_DEVICE_EXECUTE_ERROR
  | SSUSB_FILE_INVALID_PATH
  | SSUSB_FILE_OPEN_ERROR
  | SSUSB_FILE_IO_ERROR
  deriving DecidableEq, Repr

open ssusb_ret_t

/-- A C string: its bytes up to, and without, the terminating NUL. -/
abbrev CString := List Nat

/-- The registry descriptor `struct ssusb_driver` of `ssusb-types.h`; the `next`
pointer is the tail of the list the node sits in. -/
structure ssusb_driver_t where
  name : CString
  description : CString
  deriving DecidableEq, Repr

/-- Modelled from the spec: `drivers/driver.h`, which declares
`ssusb_device_driver_t`, is absent.  The capability contract of the spec gives
it a name, a description, and `init`/`deinit` returning an integer status
(0 = success); the device operations are not used by `ssusb.c`. -/
structure ssusb_device_driver_t (W : Type) where
  name : CString
  description : CString
  init : W → Int × W
  deinit : W → Int × W

/-- One lifecycle call made through a driver's function pointers. -/
inductive Call (W : Type) where
  | init (d : ssusb_device_driver_t W)
  | deinit (d : ssusb_device_driver_t W)

/-- What `ssusb.c` is compiled against: the NULL-terminated array
`_device_drivers` (without its sentinel) and the constant
`SSUSB_DRIVER_NAME_SIZE`, whose definition is not among the sources. -/
structure Config (W : Type) where
  _device_drivers : List (ssusb_device_driver_t W)
  SSUSB_DRIVER_NAME_SIZE : Nat

/-- The array `_device_drivers` of `ssusb.c:23-29`, over the four external
driver objects. -/
def reference_config {W : Type}
    (device_usb_cartridge device_datalink_red device_datalink_green
      device_datalink_bluetooth : ssusb_device_driver_t W)
    (name_size : Nat) : Config W :=
  { _device_drivers :=
      [device_usb_cartridge, device_datalink_red, device_datalink_green,
        device_datalink_bluetooth]
    SSUSB_DRIVER_NAME_SIZE := name_size }

/-- The file-scope state of `ssusb.c:31-33`, the drivers' world and the ghost
call log. -/
structure State (W : Type) where
  _initialized : Bool
  _driver_list : List ssusb_driver_t
  _device_driver : Option (ssusb_device_driver_t W)
  world : W
  calls : List (Call W)

/-- The state at program start: the static initialisers of `ssusb.c:31-33`. -/
def State.start {W : Type} (w : W) : State W :=
  { _initialized := false, _driver_list := [], _device_driver := none,
    world := w, calls := [] }

/-- The C library's `strncmp` (ISO C 7.24.4.4): compare at most `n` bytes, as
unsigned values, stopping after a NUL. -/
def strncmp : CString → CString → Nat → Int
  | _, _, 0 => 0
  | s1, s2, n + 1 =>
    if s1.headD 0 ≠ s2.headD 0 then (s1.headD 0 : Int) - (s2.headD 0 : Int)
    else if s1.headD 0 = 0 then 0
    else strncmp s1.tail s2.tail n

/-- The loop of `_drivers_get` (`ssusb.c:190-196`) from a position of the
array on. -/
def _drivers_get_walk {W : Type} (name_size : Nat) (driver_name : CString) :
    List (ssusb_device_driver_t W) → Option (ssusb_device_driver_t W)
  | [] => none
  | device_driver :: rest =>
    if strncmp driver_name device_driver.name name_size = 0 then some device_driver
    else _drivers_get_walk name_size driver_name rest

/-- The lookup `_drivers_get` of `ssusb.c:184-199`. -/
def _drivers_get {W : Type} (cfg : Config W) (driver_name : CString) :
    Option (ssusb_device_driver_t W) :=
  _drivers_get_walk cfg.SSUSB_DRIVER_NAME_SIZE driver_name cfg._device_drivers

/-- `ssusb_drivers_deselect` of `ssusb.c:155-171`. -/
def ssusb_drivers_deselect {W : Type} (s : State W) : Option (ssusb_ret_t × State W) :=
  if s._initialized = false then none
  else
    match s._device_driver with
    | some d =>
      let r := d.deinit s.world
      let s1 : State W := { s with world := r.2, calls := s.calls ++ [Call.deinit d] }
      if r.1 ≠ 0 then some (SSUSB_DESELECT_DEINIT_ERROR, { s1 with _device_driver := none })
      else some (SSUSB_OK, { s1 with _device_driver := none })
    | none => some (SSUSB_OK, { s with _device_driver := none })

/-- `ssusb_deinit` of `ssusb.c:71-89`: the result of the nested deselect is
dropped. -/
def ssusb_deinit {W : Type} (s : State W) : Option (State W) :=
  if s._initialized = false then some s
  else
    match ssusb_drivers_deselect { s with _driver_list := [] } with
    | none => none
    | some (_, s1) => some { s1 with _initialized := false }

/-- The descriptor `ssusb_init` builds for a catalog entry (`ssusb.c:56-59`). -/
def descriptor {W : Type} (d : ssusb_device_driver_t W) : ssusb_driver_t :=
  { name := d.name, description := d.description }

/-- The loop of `ssusb_init` (`ssusb.c:47-64`) from catalog position `k` on.
`cur` is what `*driver_list` holds on entry; the result is what it holds on
exit, and whether the walk reached the sentinel.  A failed `malloc` stores
NULL in `*driver_list` and returns. -/
def ssusb_init_walk {W : Type} (malloc_ok : Nat → Bool) :
    List (ssusb_device_driver_t W) → Nat → List ssusb_driver_t → List ssusb_driver_t × Bool
  | [], _, cur => (cur, true)
  | device_driver :: rest, k, _ =>
    if malloc_ok k then
      let r := ssusb_init_walk malloc_ok rest (k + 1) []
      (descriptor device_driver :: r.1, r.2)
    else ([], false)

/-- `ssusb_init` of `ssusb.c:37-69`. -/
def ssusb_init {W : Type} (cfg : Config W) (malloc_ok : Nat → Bool) (s : State W) :
    Option (ssusb_ret_t × State W) :=
  match ssusb_deinit s with
  | none => none
  | some s1 =>
    let r := ssusb_init_walk malloc_ok cfg._device_drivers 0 s1._driver_list
    if r.2 then some (SSUSB_OK, { s1 with _driver_list := r.1, _initialized := true })
    else some (SSUSB_INIT_ERROR, { s1 with _driver_list := r.1 })

/-- `ssusb_drivers_list_get` of `ssusb.c:91-100`.  The argument says whether
the output pointer is non-NULL; the second component of the result is what is
stored through it. -/
def ssusb_drivers_list_get {W : Type} (driver_list_nonnull : Bool) (s : State W) :
    Option (ssusb_ret_t × List ssusb_driver_t × State W) :=
  if s._initialized = false then none
  else if driver_list_nonnull = false then none
  else some (SSUSB_OK, s._driver_list, s)

/-- `ssusb_drivers_selected_get` of `ssusb.c:173-182`, with the output pointer
as in `ssusb_drivers_list_get`. -/
def ssusb_drivers_selected_get {W : Type} (device_nonnull : Bool) (s : State W) :
    Option (ssusb_ret_t × Option (ssusb_device_driver_t W) × State W) :=
  if s._initialized = false then none
  else if device_nonnull = false then none
  else some (SSUSB_OK, s._device_driver, s)

/-- `ssusb_drivers_select` of `ssusb.c:102-131`; `none` as name is NULL. -/
def ssusb_drivers_select {W : Type} (cfg : Config W) (driver_name : Option CString)
    (s : State W) : Option (ssusb_ret_t × State W) :=
  if s._initialized = false then none
  else
    match driver_name with
    | none => some (SSUSB_SELECT_INVALID_NAME, s)
    | some name =>
      if name.headD 0 = 0 then some (SSUSB_SELECT_INVALID_NAME, s)
      else
        match ssusb_drivers_deselect s with
        | none => none
        | some (ret, s1) =>
          if ret ≠ SSUSB_OK then some (ret, s1)
          else
            match _drivers_get cfg name with
            | none => some (SSUSB_SELECT_NOT_FOUND, s1)
            | some select_driver =>
              let r := select_driver.init s1.world
              let s2 : State W :=
                { s1 with world := r.2, calls := s1.calls ++ [Call.init select_driver] }
              if r.1 ≠ 0 then some (SSUSB_SELECT_INIT_ERROR, s2)
              else some (SSUSB_OK, { s2 with _device_driver := some select_driver })

/-- The loop of `ssusb_drivers_detect_select` (`ssusb.c:139-152`) from the
node `driver` on. -/
def ssusb_drivers_detect_walk {W : Type} (cfg : Config W) :
    List ssusb_driver_t → State W → Option (ssusb_ret_t × State W)
  | [], s => some (SSUSB_SELECT_NOT_FOUND, s)
  | driver :: next, s =>
    match ssusb_drivers_select cfg (some driver.name) s with
    | none => none
    | some (ret, s1) =>
      if ret = SSUSB_OK then some (SSUSB_OK, s1)
      else ssusb_drivers_detect_walk cfg next s1

/-- `ssusb_drivers_detect_select` of `ssusb.c:133-153`. -/
def ssusb_drivers_detect_select {W : Type} (cfg : Config W) (s : State W) :
    Option (ssusb_ret_t × State W) :=
  match ssusb_drivers_list_get true s with
  | none => none
  | some (_, driver, s0) => ssusb_drivers_detect_walk cfg driver s0

/-- The drivers of `l` are probed in order, each in the world its predecessor
left, and every `init` returns nonzero: the world after the last probe; `none`
as soon as one `init` returns 0. -/
def probe_failures {W : Type} : List (ssusb_device_driver_t W) → W → Option W
  | [], w => some w
  | d :: rest, w => if (d.init w).1 ≠ 0 then probe_failures rest (d.init w).2 else none

/-- A call of the public interface.  `list_get` and `selected_get` are called
with a non-NULL output pointer. -/
inductive Op where
  | init (malloc_ok : Nat → Bool)
  | deinit
  | list_get
  | select (driver_name : Option CString)
  | detect_select
  | deselect
  | selected_get

/-- The state after one call of the interface; `none` when an assertion of the
called function fails. -/
def step {W : Type} (cfg : Config W) : Op → State W → Option (State W)
  | Op.init malloc_ok, s => (ssusb_init cfg malloc_ok s).map (fun r => r.2)
  | Op.deinit, s => ssusb_deinit s
  | Op.list_get, s => (ssusb_drivers_list_get true s).map (fun r => r.2.2)
  | Op.select driver_name, s => (ssusb_drivers_select cfg driver_name s).map (fun r => r.2)
  | Op.detect_select, s => (ssusb_drivers_detect_select cfg s).map (fun r => r.2)
  | Op.deselect, s => (ssusb_drivers_deselect s).map (fun r => r.2)
  | Op.selected_get, s => (ssusb_drivers_selected_get true s).map (fun r => r.2.2)

/-- The state after a sequence of calls, each made in the state its
predecessor left; `none` when a call fails an assertion. -/
def run {W : Type} (cfg : Config W) : List Op → State W → Option (State W)
  | [], s => some s
  | op :: ops, s =>
    match step cfg op s with
    | none => none
    | some s1 => run cfg ops s1

/-- What holds of the session in every state the interface can reach: a
driver is active only in an initialized session; the active driver is a
catalog entry (with a non-empty name, when names are compared over at least
one byte); the registry of an initialized session lists the catalog; and the
registry is empty when the catalog is. -/
def session_inv {W : Type} (cfg : Config W) (s : State W) : Prop :=
  (s._initialized = false → s._device_driver = none) ∧
  (∀ d, s._device_driver = some d →
    d ∈ cfg._device_drivers ∧ (0 < cfg.SSUSB_DRIVER_NAME_SIZE → d.name.headD 0 ≠ 0)) ∧
  (s._initialized = true → s._driver_list = cfg._device_drivers.map descriptor) ∧
  (cfg._device_drivers = [] → s._driver_list = [])

/-- The results of the `ssusb_drivers_select` attempts that the loop of
`ssusb_drivers_detect_select` makes from the node `driver` on, in the order
made. -/
def detect_attempts {W : Type} (cfg : Config W) :
    List ssusb_driver_t → State W → List ssusb_ret_t
  | [], _ => []
  | driver :: next, s =>
    match ssusb_drivers_select cfg (some driver.name) s with
    | none => []
    | some (ret, s1) =>
      if ret = SSUSB_OK then [ret] else ret :: detect_attempts cfg next s1

/-- The comparison as the specification words it: two names agree when their
first `n` characters are the same (identical strings when both are shorter
than `n`). -/
def names_agree (n : Nat) (a b : CString) : Bool :=
  a.take n == b.take n

/-- The lookup as the specification words it: the first catalog entry, in
catalog order, whose name agrees with the requested name up to
`SSUSB_DRIVER_NAME_SIZE` characters; none when no entry agrees. -/
def lookup_spec {W : Type} (cfg : Config W) (driver_name : CString) :
    Option (ssusb_device_driver_t W) :=
  cfg._device_drivers.find? (fun d => names_agree cfg.SSUSB_DRIVER_NAME_SIZE driver_name d.name)

/-! ## Concrete drivers and sessions used by the examples below -/

/-- A driver over the trivial world whose `init` and `deinit` return fixed
statuses. -/
def fixed_driver (name : CString) (init_status deinit_status : Int) :
    ssusb_device_driver_t Unit :=
  { name := name, description := [], init := fun w => (init_status, w),
    deinit := fun w => (deinit_status, w) }

/-- An initialized session over the trivial world with the registry of `cfg`
and the given active driver. -/
def session (cfg : Config Unit) (active : Option (ssusb_device_driver_t Unit)) :
    State Unit :=
  { _initialized := true, _driver_list := cfg._device_drivers.map descriptor,
    _device_driver := active, world := (), calls := [] }

/-- Four drivers named "a", "b", "c", "d" whose lifecycle calls all succeed, as
the reference catalog, names compared up to 8 bytes. -/
def abcd_config : Config Unit :=
  reference_config (fixed_driver [97] 0 0) (fixed_driver [98] 0 0)
    (fixed_driver [99] 0 0) (fixed_driver [100] 0 0) 8

/-- The catalog of `abcd_config`, except that the `deinit` of driver "a"
fails with status 1. -/
def stubborn_config : Config Unit :=
  reference_config (fixed_driver [97] 0 1) (fixed_driver [98] 0 0)
    (fixed_driver [99] 0 0) (fixed_driver [100] 0 0) 8

/-- The catalog of `abcd_config`, except that the `init` of driver "a" fails
with status 1: the scenario [A fails, B succeeds, C succeeds]. -/
def first_fails_config : Config Unit :=
  reference_config (fixed_driver [97] 1 0) (fixed_driver [98] 0 0)
    (fixed_driver [99] 0 0) (fixed_driver [100] 0 0) 8

/-- The catalog of `abcd_config`, except that only the `init` of the third
driver, "c", succeeds. -/
def third_only_config : Config Unit :=
  reference_config (fixed_driver [97] 1 0) (fixed_driver [98] 1 0)
    (fixed_driver [99] 0 0) (fixed_driver [100] 1 0) 8

/-- The catalog of `stubborn_config`, except that the `init` of "b", "c" and
"d" fails: only "a" can be initialised, and its `deinit` fails. -/
def stubborn_alone_config : Config Unit :=
  reference_config (fixed_driver [97] 0 1) (fixed_driver [98] 1 0)
    (fixed_driver [99] 1 0) (fixed_driver [100] 1 0) 8

/-- Two drivers whose names are `n` bytes "a" followed by "x" and by "y" (for
`n = 2`: "aax" and "aay"), the first with a failing `init`, the second with a
succeeding one, names compared up to `n` bytes. -/
def long_names_config (n : Nat) : Config Unit :=
  { _device_drivers :=
      [fixed_driver (List.replicate n 97 ++ [120]) 1 0,
        fixed_driver (List.replicate n 97 ++ [121]) 0 0]
    SSUSB_DRIVER_NAME_SIZE := n }

/-- Two drivers whose names are `n` bytes "a" followed by "x" and by "y" (for
`n = 2`: "aax" and "aay"), both with a succeeding `init`, the first with a
`deinit` of the given status, names compared up to `n` bytes. -/
def shared_head_config (n : Nat) (deinit_status : Int) : Config Unit :=
  { _device_drivers :=
      [fixed_driver (List.replicate n 97 ++ [120]) 0 deinit_status,
        fixed_driver (List.replicate n 97 ++ [121]) 0 0]
    SSUSB_DRIVER_NAME_SIZE := n }

/-! ## Basic facts -/

theorem strncmp_self (s : CString) (n : Nat) : strncmp s s n = 0 := by
  induction n generalizing s with
  | zero => simp [strncmp]
  | succ n ih => simp [strncmp, ih]

theorem drivers_get_walk_none {W : Type} (n : Nat) (name : CString)
    (l : List (ssusb_device_driver_t W)) :
    _drivers_get_walk n name l = none ↔ ∀ d ∈ l, strncmp name d.name n ≠ 0 := by
  induction l with
  | nil => simp [_drivers_get_walk]
  | cons d l ih =>
    by_cases h : strncmp name d.name n = 0
    · simp [_drivers_get_walk, h]
    · simp [_drivers_get_walk, h, ih]

theorem init_walk_all_ok {W : Type} (malloc_ok : Nat → Bool)
    (l : List (ssusb_device_driver_t W)) (k : Nat) (cur : List ssusb_driver_t)
    (hl : l ≠ []) (h : ∀ i, i < l.length → malloc_ok (k + i) = true) :
    ssusb_init_walk malloc_ok l k cur = (l.map descriptor, true) := by
  induction l generalizing k cur with
  | nil => exact absurd rfl hl
  | cons d l ih =>
    have h0 : malloc_ok k = true := by simpa using h 0 (by simp)
    by_cases hl1 : l = []
    · subst hl1
      simp [ssusb_init_walk, h0]
    · have hrest : ∀ i, i < l.length → malloc_ok (k + 1 + i) = true := by
        intro i hi
        have := h (i + 1) (by simpa using hi)
        simpa [Nat.add_assoc, Nat.add_comm 1 i] using this
      rw [ssusb_init_walk]
      simp only [h0, if_true]
      rw [ih (k + 1) [] hl1 hrest]
      simp

theorem deinit_total {W : Type} (s : State W) :
    ssusb_deinit s =
      some (if s._initialized = false then s
        else
          match s._device_driver with
          | none => { s with _driver_list := [], _initialized := false }
          | some d =>
            { s with _driver_list := [], _initialized := false, _device_driver := none,
                     world := (d.deinit s.world).2,
                     calls := s.calls ++ [Call.deinit d] }) := by
  cases hi : s._initialized
  · simp [ssusb_deinit, hi]
  · cases hd : s._device_driver with
    | none => simp [ssusb_deinit, ssusb_drivers_deselect, hi, hd]
    | some d =>
      by_cases hr : (d.deinit s.world).1 = 0
      · simp [ssusb_deinit, ssusb_drivers_deselect, hi, hd, hr]
      · simp [ssusb_deinit, ssusb_drivers_deselect, hi, hd, hr]

theorem strncmp_replicate_append (n c : Nat) (hc : c ≠ 0) (a b : CString) :
    strncmp (List.replicate n c ++ a) (List.replicate n c ++ b) n = 0 := by
  induction n with
  | zero => simp [strncmp]
  | succ n ih => simp [strncmp, List.replicate_succ, hc, ih]

theorem drivers_get_walk_append {W : Type} (n : Nat) (x : ssusb_device_driver_t W)
    (l1 l2 : List (ssusb_device_driver_t W))
    (h : ∀ a ∈ l1, strncmp x.name a.name n ≠ 0) :
    _drivers_get_walk n x.name (l1 ++ x :: l2) = some x := by
  induction l1 with
  | nil => simp [_drivers_get_walk, strncmp_self]
  | cons a l1 ih =>
    have ha : strncmp x.name a.name n ≠ 0 := h a (by simp)
    have hrest : ∀ b ∈ l1, strncmp x.name b.name n ≠ 0 := fun b hb => h b (by simp [hb])
    simp [_drivers_get_walk, ha, ih hrest]

/-- When no catalog entry's name matches, under the bounded comparison, the
name of a later entry, every entry's name resolves to that entry. -/
theorem drivers_get_own_name {W : Type} (cfg : Config W) (d : ssusb_device_driver_t W)
    (huniq : cfg._device_drivers.Pairwise
      (fun a b => strncmp b.name a.name cfg.SSUSB_DRIVER_NAME_SIZE ≠ 0))
    (hd : d ∈ cfg._device_drivers) :
    _drivers_get cfg d.name = some d := by
  obtain ⟨l1, l2, hsplit⟩ := List.append_of_mem hd
  rw [hsplit, List.pairwise_append] at huniq
  unfold _drivers_get
  rw [hsplit]
  exact drivers_get_walk_append _ _ _ _ (fun a ha => huniq.2.2 a ha d (by simp))

/-- A probe: what `ssusb_drivers_select` does with a non-empty name that
resolves to `d` when no driver is active. -/
theorem select_probe {W : Type} (cfg : Config W) (d : ssusb_device_driver_t W)
    (s : State W) (hinit : s._initialized = true) (hnone : s._device_driver = none)
    (hname : d.name.headD 0 ≠ 0) (hd : _drivers_get cfg d.name = some d) :
    ssusb_drivers_select cfg (some d.name) s
      = some (if (d.init s.world).1 = 0 then
            (SSUSB_OK, { s with _device_driver := some d, world := (d.init s.world).2,
                                calls := s.calls ++ [Call.init d] })
          else
            (SSUSB_SELECT_INIT_ERROR,
              { s with world := (d.init s.world).2, calls := s.calls ++ [Call.init d] })) := by
  simp only [List.headD_eq_head?_getD] at hname
  by_cases hr : (d.init s.world).1 = 0
  · simp [ssusb_drivers_select, ssusb_drivers_deselect, hinit, hnone, hname, hd, hr]
  · simp [ssusb_drivers_select, ssusb_drivers_deselect, hinit, hnone, hname, hd, hr]

/-- The detection walk over the descriptors of `pre ++ D :: post`, when the
probes of `pre` fail and the probe of `D` succeeds. -/
theorem detect_walk_first_success {W : Type} (cfg : Config W)
    (pre post : List (ssusb_device_driver_t W)) (D : ssusb_device_driver_t W)
    (s : State W) (w1 : W)
    (hinit : s._initialized = true) (hnone : s._device_driver = none)
    (hlook : ∀ d ∈ pre ++ [D], d.name.headD 0 ≠ 0 ∧ _drivers_get cfg d.name = some d)
    (hfail : probe_failures pre s.world = some w1) (hok : (D.init w1).1 = 0) :
    ssusb_drivers_detect_walk cfg ((pre ++ D :: post).map descriptor) s
      = some (SSUSB_OK,
          { s with _device_driver := some D, world := (D.init w1).2,
                   calls := s.calls ++ (pre.map Call.init ++ [Call.init D]) }) := by
  induction pre generalizing s with
  | nil =>
    have hw : s.world = w1 := by simpa [probe_failures] using hfail
    subst hw
    have hD := hlook D (by simp)
    simp [ssusb_drivers_detect_walk, descriptor, select_probe cfg D s hinit hnone hD.1 hD.2, hok]
  | cons d pre ih =>
    have hd := hlook d (by simp)
    have hr : (d.init s.world).1 ≠ 0 := by
      intro h0
      simp [probe_failures, h0] at hfail
    have hfail1 : probe_failures pre (d.init s.world).2 = some w1 := by
      simpa [probe_failures, hr] using hfail
    have hlook1 : ∀ e ∈ pre ++ [D], e.name.headD 0 ≠ 0 ∧ _drivers_get cfg e.name = some e :=
      fun e he => hlook e (by
        rcases List.mem_append.1 he with h | h
        · simp [h]
        · simp [List.mem_singleton.1 h])
    have hstep := ih { s with world := (d.init s.world).2, calls := s.calls ++ [Call.init d] }
      hinit hnone hlook1 hfail1
    simp only [List.cons_append, List.map_cons, ssusb_drivers_detect_walk]
    have hsel := select_probe cfg d s hinit hnone hd.1 hd.2
    simp only [descriptor] at hsel ⊢
    rw [hsel]
    simp only [hr, if_false]
    simpa using hstep

/-- From an initialized state `ssusb_deinit` ends uninitialized, with an empty
registry and no active driver, having invoked the `deinit` of the driver that
was active, if any, once. -/
theorem deinit_of_initialized {W : Type} (s : State W) (hinit : s._initialized = true) :
    ∃ s1 : State W, ssusb_deinit s = some s1 ∧
      s1._initialized = false ∧ s1._driver_list = [] ∧ s1._device_driver = none ∧
      s1.calls = s.calls ++ s._device_driver.toList.map Call.deinit := by
  rw [deinit_total]
  cases hd : s._device_driver with
  | none => exact ⟨_, rfl, by simp [hinit, hd]⟩
  | some d => exact ⟨_, rfl, by simp [hinit, hd]⟩

/-- In an uninitialized state `ssusb_deinit` returns at its guard: nothing
changes.  In particular a second `ssusb_deinit` in a row changes nothing. -/
theorem deinit_of_uninitialized {W : Type} (s : State W) (hinit : s._initialized = false) :
    ssusb_deinit s = some s := by
  simp [ssusb_deinit, hinit]

/-! ## The claims -/

/-- C1: from every starting state, when the four descriptor allocations
succeed, `ssusb_init` over the reference catalog returns `SSUSB_OK`, and a
following `ssusb_drivers_list_get` returns `SSUSB_OK` and yields exactly four
descriptors, in catalog order (usb cartridge, datalink red, datalink green,
datalink bluetooth), each with the name and description of its catalog
entry. -/
theorem C1_init_then_list_get {W : Type}
    (device_usb_cartridge device_datalink_red device_datalink_green
      device_datalink_bluetooth : ssusb_device_driver_t W)
    (name_size : Nat) (malloc_ok : Nat → Bool) (s : State W)
    (halloc : ∀ k, k < 4 → malloc_ok k = true) :
    ∃ s1 : State W,
      ssusb_init (reference_config device_usb_cartridge device_datalink_red
          device_datalink_green device_datalink_bluetooth name_size) malloc_ok s
        = some (SSUSB_OK, s1) ∧
      ssusb_drivers_list_get true s1
        = some (SSUSB_OK,
            [ { name := device_usb_cartridge.name,
                description := device_usb_cartridge.description },
              { name := device_datalink_red.name,
                description := device_datalink_red.description },
              { name := device_datalink_green.name,
                description := device_datalink_green.description },
              { name := device_datalink_bluetooth.name,
                description := device_datalink_bluetooth.description } ],
            s1) := by
  have hw : ∀ cur, ssusb_init_walk malloc_ok
      [device_usb_cartridge, device_datalink_red, device_datalink_green,
        device_datalink_bluetooth] 0 cur
      = ([device_usb_cartridge, device_datalink_red, device_datalink_green,
          device_datalink_bluetooth].map descriptor, true) := by
    intro cur
    apply init_walk_all_ok _ _ _ _ (by simp)
    intro i hi
    simpa using halloc i (by simpa using hi)
  simp only [ssusb_init, deinit_total, reference_config, hw]
  simp [ssusb_drivers_list_get, descriptor]

/-- Witness of C1: the start state, allocations never failing. -/
theorem C1_init_then_list_get_witness :
    (∀ k, k < 4 → (fun _ : Nat => true) k = true) ∧
    ∃ s1 : State Unit,
      ssusb_init abcd_config (fun _ => true) (State.start ()) = some (SSUSB_OK, s1) ∧
      ssusb_drivers_list_get true s1
        = some (SSUSB_OK,
            [ { name := [97], description := [] }, { name := [98], description := [] },
              { name := [99], description := [] }, { name := [100], description := [] } ],
            s1) :=
  ⟨fun _ _ => rfl,
    C1_init_then_list_get (fixed_driver [97] 0 0) (fixed_driver [98] 0 0)
      (fixed_driver [99] 0 0) (fixed_driver [100] 0 0) 8 (fun _ => true) (State.start ())
      (fun _ _ => rfl)⟩

/-- C2, as stated, fails: with driver "a" active (its `deinit` succeeding),
selecting the unknown name "z" returns `SSUSB_SELECT_NOT_FOUND`, but the
active driver is not what it was: no driver is active after the call. -/
theorem C2_select_unknown_counterexample :
    (session abcd_config (some (fixed_driver [97] 0 0)))._initialized = true ∧
    (session abcd_config (some (fixed_driver [97] 0 0)))._device_driver
      = some (fixed_driver [97] 0 0) ∧
    List.headD [122] 0 ≠ 0 ∧
    (∀ d ∈ abcd_config._device_drivers,
      strncmp [122] d.name abcd_config.SSUSB_DRIVER_NAME_SIZE ≠ 0) ∧
    ∃ s1 : State Unit,
      ssusb_drivers_select abcd_config (some [122])
          (session abcd_config (some (fixed_driver [97] 0 0)))
        = some (SSUSB_SELECT_NOT_FOUND, s1) ∧
      s1._device_driver = none := by
  refine ⟨rfl, rfl, by decide, ?_, ?_⟩
  · intro d hd
    simp [abcd_config, reference_config] at hd
    rcases hd with rfl | rfl | rfl | rfl <;> simp [abcd_config, reference_config, fixed_driver, strncmp]
  · exact ⟨_, rfl, rfl⟩

/-- C2, amended: in an initialized state, `ssusb_drivers_select` with an unknown
name (non-empty, matching no catalog entry) deselects first.  With no driver
active it returns `SSUSB_SELECT_NOT_FOUND` and changes nothing.  With a driver
active, that driver's `deinit` is invoked once and no driver is active after
the call; the result is `SSUSB_SELECT_NOT_FOUND` when the `deinit` returned 0
and `SSUSB_DESELECT_DEINIT_ERROR` otherwise. -/
theorem C2_select_unknown {W : Type} (cfg : Config W) (name : CString) (s : State W)
    (hinit : s._initialized = true) (hname : name.headD 0 ≠ 0)
    (hunknown : ∀ d ∈ cfg._device_drivers,
      strncmp name d.name cfg.SSUSB_DRIVER_NAME_SIZE ≠ 0) :
    (s._device_driver = none →
      ssusb_drivers_select cfg (some name) s = some (SSUSB_SELECT_NOT_FOUND, s)) ∧
    (∀ X, s._device_driver = some X →
      ssusb_drivers_select cfg (some name) s
        = some (if (X.deinit s.world).1 = 0 then SSUSB_SELECT_NOT_FOUND
                else SSUSB_DESELECT_DEINIT_ERROR,
            { s with _device_driver := none, world := (X.deinit s.world).2,
                     calls := s.calls ++ [Call.deinit X] })) := by
  have hget : _drivers_get cfg name = none :=
    (drivers_get_walk_none _ _ _).2 hunknown
  constructor
  · intro hnone
    cases s
    simp_all [ssusb_drivers_select, ssusb_drivers_deselect]
  · intro X hX
    simp only [List.headD_eq_head?_getD] at hname
    by_cases hr : (X.deinit s.world).1 = 0
    · simp [ssusb_drivers_select, ssusb_drivers_deselect, hinit, hname, hX, hr, hget]
    · simp [ssusb_drivers_select, ssusb_drivers_deselect, hinit, hname, hX, hr]

/-- Witness of the amended C2: the name "z" in a session with driver "a"
active. -/
theorem C2_select_unknown_witness :
    ((session abcd_config (some (fixed_driver [97] 0 0)))._device_driver = none →
      ssusb_drivers_select abcd_config (some [122])
          (session abcd_config (some (fixed_driver [97] 0 0)))
        = some (SSUSB_SELECT_NOT_FOUND,
            session abcd_config (some (fixed_driver [97] 0 0)))) ∧
    (∀ X, (session abcd_config (some (fixed_driver [97] 0 0)))._device_driver = some X →
      ssusb_drivers_select abcd_config (some [122])
          (session abcd_config (some (fixed_driver [97] 0 0)))
        = some (if (X.deinit ()).1 = 0 then SSUSB_SELECT_NOT_FOUND
                else SSUSB_DESELECT_DEINIT_ERROR,
            { session abcd_config (some (fixed_driver [97] 0 0)) with
                _device_driver := none, world := (X.deinit ()).2,
                calls := [] ++ [Call.deinit X] })) :=
  C2_select_unknown abcd_config [122] (session abcd_config (some (fixed_driver [97] 0 0)))
    rfl (by decide) (by
      intro d hd
      simp [abcd_config, reference_config] at hd
      rcases hd with rfl | rfl | rfl | rfl <;>
        simp [abcd_config, reference_config, fixed_driver, strncmp])

/-- C3: in an initialized state, `ssusb_drivers_select` with a NULL name or
with an empty string returns `SSUSB_SELECT_INVALID_NAME` and leaves the whole
state as it was: the active driver (present or not) is unchanged and the call
log gains no `init` or `deinit`. -/
theorem C3_select_invalid_name {W : Type} (cfg : Config W) (s : State W)
    (hinit : s._initialized = true) :
    ssusb_drivers_select cfg none s = some (SSUSB_SELECT_INVALID_NAME, s) ∧
    ∀ name : CString, name.headD 0 = 0 →
      ssusb_drivers_select cfg (some name) s = some (SSUSB_SELECT_INVALID_NAME, s) := by
  constructor
  · simp [ssusb_drivers_select, hinit]
  · intro name hname
    simp only [List.headD_eq_head?_getD] at hname
    simp [ssusb_drivers_select, hinit, hname]

/-- Witness of C3: a session with driver "b" active. -/
theorem C3_select_invalid_name_witness :
    ssusb_drivers_select abcd_config none (session abcd_config (some (fixed_driver [98] 0 0)))
      = some (SSUSB_SELECT_INVALID_NAME,
          session abcd_config (some (fixed_driver [98] 0 0))) ∧
    ∀ name : CString, name.headD 0 = 0 →
      ssusb_drivers_select abcd_config (some name)
          (session abcd_config (some (fixed_driver [98] 0 0)))
        = some (SSUSB_SELECT_INVALID_NAME,
            session abcd_config (some (fixed_driver [98] 0 0))) :=
  C3_select_invalid_name abcd_config (session abcd_config (some (fixed_driver [98] 0 0))) rfl

/-- C4, as stated, fails whatever the value `n` of `SSUSB_DRIVER_NAME_SIZE`:
the two names of `shared_head_config n 0` are non-empty and different, the
first driver is active, and the name of the second driver, a valid catalog
name other than the first's, is selected; the call returns `SSUSB_OK` with the
first driver active again, after `deinit` and then `init` of that first
driver, because the second name resolves to the first entry, with which it
shares its first `n` bytes. -/
theorem C4_select_replaces_active_counterexample :
    (∀ n : Nat, ∀ d ∈ (shared_head_config n 0)._device_drivers, d.name.headD 0 ≠ 0) ∧
    (∀ n : Nat, ((shared_head_config n 0)._device_drivers.map (fun d => d.name)).Nodup) ∧
    (∀ n : Nat,
      fixed_driver (List.replicate n 97 ++ [121]) 0 0
        ∈ (shared_head_config n 0)._device_drivers) ∧
    (∀ n : Nat,
      ssusb_drivers_select (shared_head_config n 0) (some (List.replicate n 97 ++ [121]))
          (session (shared_head_config n 0)
            (some (fixed_driver (List.replicate n 97 ++ [120]) 0 0)))
        = some (SSUSB_OK,
            { session (shared_head_config n 0)
                (some (fixed_driver (List.replicate n 97 ++ [120]) 0 0)) with
                calls := [Call.deinit (fixed_driver (List.replicate n 97 ++ [120]) 0 0),
                  Call.init (fixed_driver (List.replicate n 97 ++ [120]) 0 0)] })) := by
  refine ⟨?_, ?_, ?_, ?_⟩
  · intro n d hd
    simp [shared_head_config] at hd
    rcases hd with rfl | rfl <;> cases n <;> simp [fixed_driver, List.replicate_succ]
  · intro n
    simp [shared_head_config, fixed_driver]
  · intro n
    simp [shared_head_config]
  · intro n
    cases n with
    | zero =>
      simp [ssusb_drivers_select, ssusb_drivers_deselect, _drivers_get, _drivers_get_walk,
        shared_head_config, session, descriptor, fixed_driver, strncmp]
    | succ m =>
      have h : strncmp (97 :: (List.replicate m 97 ++ [121]))
          (97 :: (List.replicate m 97 ++ [120])) (m + 1) = 0 := by
        simpa [List.replicate_succ] using
          strncmp_replicate_append (m + 1) 97 (by decide) [121] [120]
      simp [ssusb_drivers_select, ssusb_drivers_deselect, _drivers_get, _drivers_get_walk,
        shared_head_config, session, descriptor, fixed_driver, h, List.replicate_succ]

/-- C4, amended: in an initialized state with driver `X` active,
`ssusb_drivers_select` with a non-empty name that the lookup resolves to a
catalog entry `Y` other than `X` never ends with both `X` and `Y` active: `X`
is not active afterwards (the active driver is `Y` or none), and the lifecycle
calls made are `X.deinit`, exactly once and first, followed by at most one
`Y.init`.  When no catalog name agrees with the name of a later entry within
the first `SSUSB_DRIVER_NAME_SIZE` bytes, the name of every catalog entry
resolves to that entry, so this covers every catalog name other than `X`'s. -/
theorem C4_select_replaces_active {W : Type} (cfg : Config W) (name : CString)
    (s : State W) (X Y : ssusb_device_driver_t W)
    (hinit : s._initialized = true) (hactive : s._device_driver = some X)
    (hname : name.headD 0 ≠ 0) (hY : _drivers_get cfg name = some Y) (hXY : Y ≠ X) :
    (∃ (ret : ssusb_ret_t) (s1 : State W),
      ssusb_drivers_select cfg (some name) s = some (ret, s1) ∧
      s1._device_driver ≠ some X ∧
      (s1._device_driver = none ∨ s1._device_driver = some Y) ∧
      (s1.calls = s.calls ++ [Call.deinit X] ∨
        s1.calls = s.calls ++ [Call.deinit X, Call.init Y])) ∧
    (cfg._device_drivers.Pairwise
        (fun a b => strncmp b.name a.name cfg.SSUSB_DRIVER_NAME_SIZE ≠ 0) →
      ∀ Z ∈ cfg._device_drivers, _drivers_get cfg Z.name = some Z) := by
  refine ⟨?_, fun hp Z hZ => drivers_get_own_name cfg Z hp hZ⟩
  simp only [List.headD_eq_head?_getD] at hname
  by_cases hr : (X.deinit s.world).1 = 0
  · by_cases hy : (Y.init (X.deinit s.world).2).1 = 0
    · refine ⟨SSUSB_OK,
        { s with _device_driver := some Y, world := (Y.init (X.deinit s.world).2).2,
                 calls := s.calls ++ [Call.deinit X, Call.init Y] }, ?_, ?_, Or.inr rfl,
        Or.inr rfl⟩
      · simp [ssusb_drivers_select, ssusb_drivers_deselect, hinit, hname, hactive, hr, hY, hy]
      · simpa using hXY
    · refine ⟨SSUSB_SELECT_INIT_ERROR,
        { s with _device_driver := none, world := (Y.init (X.deinit s.world).2).2,
                 calls := s.calls ++ [Call.deinit X, Call.init Y] }, ?_, ?_, Or.inl rfl,
        Or.inr rfl⟩
      · simp [ssusb_drivers_select, ssusb_drivers_deselect, hinit, hname, hactive, hr, hY, hy]
      · simp
  · refine ⟨SSUSB_DESELECT_DEINIT_ERROR,
      { s with _device_driver := none, world := (X.deinit s.world).2,
               calls := s.calls ++ [Call.deinit X] }, ?_, ?_, Or.inl rfl, Or.inl rfl⟩
    · simp [ssusb_drivers_select, ssusb_drivers_deselect, hinit, hname, hactive, hr]
    · simp

/-- Witness of the amended C4: driver "a" active, then the name "b" is selected. -/
theorem C4_select_replaces_active_witness :
    (∃ (ret : ssusb_ret_t) (s1 : State Unit),
      ssusb_drivers_select abcd_config (some [98])
          (session abcd_config (some (fixed_driver [97] 0 0))) = some (ret, s1) ∧
      s1._device_driver ≠ some (fixed_driver [97] 0 0) ∧
      (s1._device_driver = none ∨ s1._device_driver = some (fixed_driver [98] 0 0)) ∧
      (s1.calls = [] ++ [Call.deinit (fixed_driver [97] 0 0)] ∨
        s1.calls = [] ++ [Call.deinit (fixed_driver [97] 0 0),
          Call.init (fixed_driver [98] 0 0)])) ∧
    (abcd_config._device_drivers.Pairwise
        (fun a b => strncmp b.name a.name abcd_config.SSUSB_DRIVER_NAME_SIZE ≠ 0) →
      ∀ Z ∈ abcd_config._device_drivers, _drivers_get abcd_config Z.name = some Z) :=
  C4_select_replaces_active abcd_config [98]
    (session abcd_config (some (fixed_driver [97] 0 0)))
    (fixed_driver [97] 0 0) (fixed_driver [98] 0 0) rfl rfl (by decide)
    (by simp [_drivers_get, _drivers_get_walk, abcd_config, reference_config, fixed_driver,
          strncmp])
    (by
      intro h
      have hn := congrArg ssusb_device_driver_t.name h
      simp [fixed_driver] at hn)

/-- C5: in an initialized state whose preliminary deselect succeeds (no driver
active, or the active driver's `deinit` returns 0), `ssusb_drivers_select` with
a non-empty name that the catalog resolves to `D` invokes `D.init` exactly
once, right after the deselect.  If that `init` returns 0 the result is
`SSUSB_OK` and `ssusb_drivers_selected_get` then yields `D`; if it returns
anything else the result is `SSUSB_SELECT_INIT_ERROR` and no driver is
active. -/
theorem C5_select_known {W : Type} (cfg : Config W) (name : CString) (s : State W)
    (D : ssusb_device_driver_t W)
    (hinit : s._initialized = true)
    (hdeselect : ∀ X, s._device_driver = some X → (X.deinit s.world).1 = 0)
    (hname : name.headD 0 ≠ 0) (hD : _drivers_get cfg name = some D) :
    ∃ (s1 : State W) (ret : ssusb_ret_t) (s2 : State W),
      ssusb_drivers_deselect s = some (SSUSB_OK, s1) ∧
      ssusb_drivers_select cfg (some name) s = some (ret, s2) ∧
      s2.calls = s1.calls ++ [Call.init D] ∧
      ((D.init s1.world).1 = 0 →
        ret = SSUSB_OK ∧
        ssusb_drivers_selected_get true s2 = some (SSUSB_OK, some D, s2)) ∧
      ((D.init s1.world).1 ≠ 0 →
        ret = SSUSB_SELECT_INIT_ERROR ∧ s2._device_driver = none) := by
  simp only [List.headD_eq_head?_getD] at hname
  have hds : ∃ s1 : State W, ssusb_drivers_deselect s = some (SSUSB_OK, s1) ∧
      s1._initialized = true ∧ s1._device_driver = none := by
    cases hd : s._device_driver with
    | none =>
      exact ⟨{ s with _device_driver := none },
        by simp [ssusb_drivers_deselect, hinit, hd], hinit, rfl⟩
    | some X =>
      exact ⟨{ s with _device_driver := none, world := (X.deinit s.world).2,
                      calls := s.calls ++ [Call.deinit X] },
        by simp [ssusb_drivers_deselect, hinit, hd, hdeselect X hd], hinit, rfl⟩
  obtain ⟨s1, h1, hi1, hn1⟩ := hds
  by_cases hr : (D.init s1.world).1 = 0
  · refine ⟨s1, SSUSB_OK,
      { s1 with _device_driver := some D, world := (D.init s1.world).2,
                calls := s1.calls ++ [Call.init D] }, h1, ?_, rfl, ?_, ?_⟩
    · simp [ssusb_drivers_select, hinit, hname, h1, hD, hr]
    · intro _
      simp [ssusb_drivers_selected_get, hi1]
    · intro h
      exact absurd hr h
  · refine ⟨s1, SSUSB_SELECT_INIT_ERROR,
      { s1 with world := (D.init s1.world).2, calls := s1.calls ++ [Call.init D] },
      h1, ?_, rfl, ?_, ?_⟩
    · simp [ssusb_drivers_select, hinit, hname, h1, hD, hr]
    · intro h
      exact absurd h hr
    · intro _
      exact ⟨rfl, hn1⟩

/-- Witness of C5: the name "c" selected while driver "a" is active. -/
theorem C5_select_known_witness :
    ∃ (s1 : State Unit) (ret : ssusb_ret_t) (s2 : State Unit),
      ssusb_drivers_deselect (session abcd_config (some (fixed_driver [97] 0 0)))
        = some (SSUSB_OK, s1) ∧
      ssusb_drivers_select abcd_config (some [99])
          (session abcd_config (some (fixed_driver [97] 0 0))) = some (ret, s2) ∧
      s2.calls = s1.calls ++ [Call.init (fixed_driver [99] 0 0)] ∧
      (((fixed_driver [99] 0 0).init s1.world).1 = 0 →
        ret = SSUSB_OK ∧
        ssusb_drivers_selected_get true s2
          = some (SSUSB_OK, some (fixed_driver [99] 0 0), s2)) ∧
      (((fixed_driver [99] 0 0).init s1.world).1 ≠ 0 →
        ret = SSUSB_SELECT_INIT_ERROR ∧ s2._device_driver = none) :=
  C5_select_known abcd_config [99] (session abcd_config (some (fixed_driver [97] 0 0)))
    (fixed_driver [99] 0 0) rfl
    (by
      intro X hX
      have hX1 : fixed_driver [97] 0 0 = X := by simpa [session] using hX
      subst hX1
      rfl)
    (by decide)
    (by simp [_drivers_get, _drivers_get_walk, abcd_config, reference_config, fixed_driver,
          strncmp])

/-- C6: in an initialized state whose active driver `X` has a `deinit` that
returns nonzero, `ssusb_drivers_select` with any non-empty name, known or not,
returns `SSUSB_DESELECT_DEINIT_ERROR`; its only lifecycle call is that
`X.deinit` (no `init` of any driver), and no driver is active afterwards. -/
theorem C6_select_propagates_deselect_error {W : Type} (cfg : Config W) (name : CString)
    (s : State W) (X : ssusb_device_driver_t W)
    (hinit : s._initialized = true) (hactive : s._device_driver = some X)
    (hfail : (X.deinit s.world).1 ≠ 0) (hname : name.headD 0 ≠ 0) :
    ssusb_drivers_select cfg (some name) s
      = some (SSUSB_DESELECT_DEINIT_ERROR,
          { s with _device_driver := none, world := (X.deinit s.world).2,
                   calls := s.calls ++ [Call.deinit X] }) := by
  simp only [List.headD_eq_head?_getD] at hname
  simp [ssusb_drivers_select, ssusb_drivers_deselect, hinit, hname, hactive, hfail]

/-- Witness of C6: driver "a", whose `deinit` fails, is active and the known
name "b" is selected. -/
theorem C6_select_propagates_deselect_error_witness :
    ssusb_drivers_select stubborn_config (some [98])
        (session stubborn_config (some (fixed_driver [97] 0 1)))
      = some (SSUSB_DESELECT_DEINIT_ERROR,
          { session stubborn_config (some (fixed_driver [97] 0 1)) with
              _device_driver := none,
              world := ((fixed_driver [97] 0 1).deinit ()).2,
              calls := [] ++ [Call.deinit (fixed_driver [97] 0 1)] }) :=
  C6_select_propagates_deselect_error stubborn_config [98]
    (session stubborn_config (some (fixed_driver [97] 0 1))) (fixed_driver [97] 0 1)
    rfl rfl (by decide) (by decide)

/-- C7: in an initialized state, `ssusb_drivers_deselect` returns with no
driver active, whatever `deinit` returned, and with the registry and the
initialized flag as they were.  With no driver active it returns `SSUSB_OK`
and makes no lifecycle call.  With driver `X` active it invokes `X.deinit`
exactly once and returns `SSUSB_DESELECT_DEINIT_ERROR` if and only if that
call returned nonzero, `SSUSB_OK` otherwise. -/
theorem C7_deselect {W : Type} (s : State W) (hinit : s._initialized = true) :
    ∃ (ret : ssusb_ret_t) (s1 : State W),
      ssusb_drivers_deselect s = some (ret, s1) ∧
      s1._device_driver = none ∧
      s1._initialized = true ∧ s1._driver_list = s._driver_list ∧
      (s._device_driver = none →
        ret = SSUSB_OK ∧ s1.calls = s.calls ∧ s1.world = s.world) ∧
      (∀ X, s._device_driver = some X →
        s1.calls = s.calls ++ [Call.deinit X] ∧ s1.world = (X.deinit s.world).2 ∧
        (ret = SSUSB_DESELECT_DEINIT_ERROR ↔ (X.deinit s.world).1 ≠ 0) ∧
        (ret = SSUSB_OK ↔ (X.deinit s.world).1 = 0)) := by
  cases hd : s._device_driver with
  | none =>
    exact ⟨SSUSB_OK, { s with _device_driver := none },
      by simp [ssusb_drivers_deselect, hinit, hd], rfl, hinit, rfl,
      fun _ => ⟨rfl, rfl, rfl⟩, fun X hX => by simp at hX⟩
  | some Y =>
    by_cases hr : (Y.deinit s.world).1 = 0
    · refine ⟨SSUSB_OK,
        { s with _device_driver := none, world := (Y.deinit s.world).2,
                 calls := s.calls ++ [Call.deinit Y] },
        by simp [ssusb_drivers_deselect, hinit, hd, hr], rfl, hinit, rfl,
        fun h => by simp at h, ?_⟩
      intro X hX
      have hYX : Y = X := by simpa using hX
      subst hYX
      simp [hr]
    · refine ⟨SSUSB_DESELECT_DEINIT_ERROR,
        { s with _device_driver := none, world := (Y.deinit s.world).2,
                 calls := s.calls ++ [Call.deinit Y] },
        by simp [ssusb_drivers_deselect, hinit, hd, hr], rfl, hinit, rfl,
        fun h => by simp at h, ?_⟩
      intro X hX
      have hYX : Y = X := by simpa using hX
      subst hYX
      simp [hr]

/-- Witness of C7: driver "a", whose `deinit` fails, is active. -/
theorem C7_deselect_witness :
    ∃ (ret : ssusb_ret_t) (s1 : State Unit),
      ssusb_drivers_deselect (session stubborn_config (some (fixed_driver [97] 0 1)))
        = some (ret, s1) ∧
      s1._device_driver = none ∧
      s1._initialized = true ∧
      s1._driver_list
        = (session stubborn_config (some (fixed_driver [97] 0 1)))._driver_list ∧
      ((session stubborn_config (some (fixed_driver [97] 0 1)))._device_driver = none →
        ret = SSUSB_OK ∧ s1.calls = [] ∧ s1.world = ()) ∧
      (∀ X, (session stubborn_config (some (fixed_driver [97] 0 1)))._device_driver
          = some X →
        s1.calls = [] ++ [Call.deinit X] ∧ s1.world = (X.deinit ()).2 ∧
        (ret = SSUSB_DESELECT_DEINIT_ERROR ↔ (X.deinit ()).1 ≠ 0) ∧
        (ret = SSUSB_OK ↔ (X.deinit ()).1 = 0)) :=
  C7_deselect (session stubborn_config (some (fixed_driver [97] 0 1))) rfl

/-- C8, as stated, fails whatever the value `n` of `SSUSB_DRIVER_NAME_SIZE`:
the two names of `long_names_config n` are non-empty and different, the first
driver's `init` fails and the second's succeeds, and yet detection in a fresh
session returns `SSUSB_SELECT_NOT_FOUND` with no driver active, having called
`init` twice on the first driver and never on the second: the second name
resolves to the first entry, with which it shares its first `n` bytes. -/
theorem C8_detect_first_success_counterexample :
    (∀ n : Nat, ∀ d ∈ (long_names_config n)._device_drivers, d.name.headD 0 ≠ 0) ∧
    (∀ n : Nat, ((long_names_config n)._device_drivers.map (fun d => d.name)).Nodup) ∧
    (∀ n : Nat,
      ssusb_drivers_detect_select (long_names_config n) (session (long_names_config n) none)
        = some (SSUSB_SELECT_NOT_FOUND,
            { session (long_names_config n) none with
                calls := [Call.init (fixed_driver (List.replicate n 97 ++ [120]) 1 0),
                  Call.init (fixed_driver (List.replicate n 97 ++ [120]) 1 0)] })) := by
  refine ⟨?_, ?_, ?_⟩
  · intro n d hd
    simp [long_names_config] at hd
    rcases hd with rfl | rfl <;> cases n <;> simp [fixed_driver, List.replicate_succ]
  · intro n
    simp [long_names_config, fixed_driver]
  · intro n
    cases n with
    | zero =>
      simp [ssusb_drivers_detect_select, ssusb_drivers_list_get, ssusb_drivers_detect_walk,
        ssusb_drivers_select, ssusb_drivers_deselect, _drivers_get, _drivers_get_walk,
        long_names_config, session, descriptor, fixed_driver, strncmp]
    | succ m =>
      have h : strncmp (97 :: (List.replicate m 97 ++ [121]))
          (97 :: (List.replicate m 97 ++ [120])) (m + 1) = 0 := by
        simpa [List.replicate_succ] using
          strncmp_replicate_append (m + 1) 97 (by decide) [121] [120]
      simp [ssusb_drivers_detect_select, ssusb_drivers_list_get, ssusb_drivers_detect_walk,
        ssusb_drivers_select, ssusb_drivers_deselect, _drivers_get, _drivers_get_walk,
        long_names_config, session, descriptor, fixed_driver, strncmp_self, h,
        List.replicate_succ]

/-- C8, amended: take a catalog whose names are non-empty and pairwise
distinct under the lookup's comparison (no entry's name agrees, within the
first `SSUSB_DRIVER_NAME_SIZE` bytes, with the name of a later entry), and an
initialized session over it with no active driver.  If, probing in catalog
order, the `init` of every entry of `pre` returns nonzero and the `init` of the
next entry `D` returns 0, then `ssusb_drivers_detect_select` returns `SSUSB_OK`
with `D` active; `init` has been invoked once on each entry of `pre`, in
order, then once on `D`, and on no entry of `post`. -/
theorem C8_detect_first_success {W : Type} (cfg : Config W)
    (pre post : List (ssusb_device_driver_t W)) (D : ssusb_device_driver_t W)
    (s : State W) (w1 : W)
    (hinit : s._initialized = true) (hnone : s._device_driver = none)
    (hreg : s._driver_list = cfg._device_drivers.map descriptor)
    (hcat : cfg._device_drivers = pre ++ D :: post)
    (hnames : ∀ d ∈ cfg._device_drivers, d.name.headD 0 ≠ 0)
    (huniq : cfg._device_drivers.Pairwise
      (fun a b => strncmp b.name a.name cfg.SSUSB_DRIVER_NAME_SIZE ≠ 0))
    (hfail : probe_failures pre s.world = some w1) (hok : (D.init w1).1 = 0) :
    ssusb_drivers_detect_select cfg s
      = some (SSUSB_OK,
          { s with _device_driver := some D, world := (D.init w1).2,
                   calls := s.calls ++ (pre.map Call.init ++ [Call.init D]) }) := by
  have hlook : ∀ d ∈ pre ++ [D], d.name.headD 0 ≠ 0 ∧ _drivers_get cfg d.name = some d := by
    intro d hd
    have hmem : d ∈ cfg._device_drivers := by
      rw [hcat]
      rcases List.mem_append.1 hd with h | h
      · simp [h]
      · simp [List.mem_singleton.1 h]
    exact ⟨hnames d hmem, drivers_get_own_name cfg d huniq hmem⟩
  have hwalk := detect_walk_first_success cfg pre post D s w1 hinit hnone hlook hfail hok
  have hlist : ssusb_drivers_list_get true s = some (SSUSB_OK, s._driver_list, s) := by
    simp [ssusb_drivers_list_get, hinit]
  rw [← hcat, ← hreg] at hwalk
  unfold ssusb_drivers_detect_select
  rw [hlist]
  exact hwalk

/-- Witness of the amended C8: the catalog [A fails, B succeeds, C succeeds,
D succeeds] in a fresh session: B becomes active after one probe of A and one
of B. -/
theorem C8_detect_first_success_witness :
    ssusb_drivers_detect_select first_fails_config (session first_fails_config none)
      = some (SSUSB_OK,
          { session first_fails_config none with
              _device_driver := some (fixed_driver [98] 0 0),
              world := ((fixed_driver [98] 0 0).init ()).2,
              calls := [] ++ ([fixed_driver [97] 1 0].map Call.init
                ++ [Call.init (fixed_driver [98] 0 0)]) }) :=
  C8_detect_first_success first_fails_config [fixed_driver [97] 1 0]
    [fixed_driver [99] 0 0, fixed_driver [100] 0 0] (fixed_driver [98] 0 0)
    (session first_fails_config none) () rfl rfl rfl rfl
    (by
      intro d hd
      simp [first_fails_config, reference_config] at hd
      rcases hd with rfl | rfl | rfl | rfl <;> simp [fixed_driver])
    (by simp [first_fails_config, reference_config, fixed_driver, strncmp])
    (by simp [probe_failures, fixed_driver])
    rfl

/-- C9, as stated, fails: over a catalog in which only the third driver's
`init` succeeds, detection in a fresh session leaves the third driver active
after exactly three lifecycle calls, the `init` of the first, second and third
driver: no `deinit` is invoked on the two failed candidates. -/
theorem C9_detect_third_only_counterexample :
    ssusb_drivers_detect_select third_only_config (session third_only_config none)
      = some (SSUSB_OK,
          { session third_only_config none with
              _device_driver := some (fixed_driver [99] 0 0),
              calls := [Call.init (fixed_driver [97] 1 0), Call.init (fixed_driver [98] 1 0),
                Call.init (fixed_driver [99] 0 0)] }) := by
  simp [ssusb_drivers_detect_select, ssusb_drivers_list_get, ssusb_drivers_detect_walk,
    ssusb_drivers_select, ssusb_drivers_deselect, _drivers_get, _drivers_get_walk,
    third_only_config, reference_config, session, descriptor, fixed_driver, strncmp]

/-- C9, amended: over a catalog whose first three entries `a`, `b`, `c` have
non-empty names that the lookup tells apart, where the `init` of `a` and of `b`
always fails and the `init` of `c` always succeeds,
`ssusb_drivers_detect_select` from an initialized session returns `SSUSB_OK`
with exactly `c` active.  From a session with no active driver its lifecycle
calls are `a.init`, `b.init`, `c.init`, in this order and nothing else: a
failed probe is not followed by a `deinit` of the probed driver.  The only
`deinit` ever invoked is that of the driver `X` active before the call, once
and first; when it returns nonzero the first candidate is not probed. -/
theorem C9_detect_third_only {W : Type} (cfg : Config W)
    (a b c : ssusb_device_driver_t W) (rest : List (ssusb_device_driver_t W))
    (s : State W)
    (hinit : s._initialized = true)
    (hreg : s._driver_list = cfg._device_drivers.map descriptor)
    (hcat : cfg._device_drivers = a :: b :: c :: rest)
    (hna : a.name.headD 0 ≠ 0) (hnb : b.name.headD 0 ≠ 0) (hnc : c.name.headD 0 ≠ 0)
    (hba : strncmp b.name a.name cfg.SSUSB_DRIVER_NAME_SIZE ≠ 0)
    (hca : strncmp c.name a.name cfg.SSUSB_DRIVER_NAME_SIZE ≠ 0)
    (hcb : strncmp c.name b.name cfg.SSUSB_DRIVER_NAME_SIZE ≠ 0)
    (ha : ∀ w, (a.init w).1 ≠ 0) (hb : ∀ w, (b.init w).1 ≠ 0)
    (hc : ∀ w, (c.init w).1 = 0) :
    ∃ s1 : State W,
      ssusb_drivers_detect_select cfg s = some (SSUSB_OK, s1) ∧
      s1._device_driver = some c ∧
      (s._device_driver = none →
        s1.calls = s.calls ++ [Call.init a, Call.init b, Call.init c]) ∧
      (∀ X, s._device_driver = some X →
        s1.calls = s.calls ++
          (if (X.deinit s.world).1 = 0 then
            [Call.deinit X, Call.init a, Call.init b, Call.init c]
          else [Call.deinit X, Call.init b, Call.init c])) := by
  have hga : _drivers_get cfg a.name = some a := by
    simp [_drivers_get, hcat, _drivers_get_walk, strncmp_self]
  have hgb : _drivers_get cfg b.name = some b := by
    simp [_drivers_get, hcat, _drivers_get_walk, strncmp_self, hba]
  have hgc : _drivers_get cfg c.name = some c := by
    simp [_drivers_get, hcat, _drivers_get_walk, strncmp_self, hca, hcb]
  have hlist : ssusb_drivers_list_get true s = some (SSUSB_OK, s._driver_list, s) := by
    simp [ssusb_drivers_list_get, hinit]
  have hds : ssusb_drivers_detect_select cfg s
      = ssusb_drivers_detect_walk cfg ((a :: b :: c :: rest).map descriptor) s := by
    unfold ssusb_drivers_detect_select
    rw [hlist, hreg, hcat]
  have hlook_bc : ∀ d ∈ [b] ++ [c], d.name.headD 0 ≠ 0 ∧ _drivers_get cfg d.name = some d := by
    intro d hd
    simp at hd
    rcases hd with rfl | rfl
    · exact ⟨hnb, hgb⟩
    · exact ⟨hnc, hgc⟩
  have hfrom_b : ∀ t : State W, t._initialized = true → t._device_driver = none →
      ssusb_drivers_detect_walk cfg ((b :: c :: rest).map descriptor) t
        = some (SSUSB_OK,
            { t with _device_driver := some c, world := (c.init (b.init t.world).2).2,
                     calls := t.calls ++ ([b].map Call.init ++ [Call.init c]) }) := by
    intro t hti htn
    exact detect_walk_first_success cfg [b] rest c t (b.init t.world).2 hti htn hlook_bc
      (by simp [probe_failures, hb]) (hc _)
  have hname_a : (a.name.head?).getD 0 ≠ 0 := by
    simpa only [List.headD_eq_head?_getD] using hna
  cases hd : s._device_driver with
  | none =>
    have hsel := select_probe cfg a s hinit hd hna hga
    simp only [ha, if_false] at hsel
    have hwalk := hfrom_b
      { s with world := (a.init s.world).2, calls := s.calls ++ [Call.init a] } hinit hd
    refine ⟨{ s with _device_driver := some c,
                     world := (c.init (b.init (a.init s.world).2).2).2,
                     calls := s.calls ++ [Call.init a, Call.init b, Call.init c] },
      ?_, rfl, fun _ => rfl, ?_⟩
    · rw [hds]
      simp only [List.map_cons, ssusb_drivers_detect_walk]
      simp only [descriptor] at hsel hwalk ⊢
      rw [hsel]
      simpa using hwalk
    · intro X hX
      simp at hX
  | some X =>
    by_cases hr : (X.deinit s.world).1 = 0
    · have hsel : ssusb_drivers_select cfg (some a.name) s
          = some (SSUSB_SELECT_INIT_ERROR,
              { s with _device_driver := none, world := (a.init (X.deinit s.world).2).2,
                       calls := s.calls ++ [Call.deinit X] ++ [Call.init a] }) := by
        simp [ssusb_drivers_select, ssusb_drivers_deselect, hinit, hd, hr, hname_a, hga, ha]
      have hwalk := hfrom_b
        { s with _device_driver := none, world := (a.init (X.deinit s.world).2).2,
                 calls := s.calls ++ [Call.deinit X] ++ [Call.init a] } hinit rfl
      refine ⟨{ s with _device_driver := some c,
                       world := (c.init (b.init (a.init (X.deinit s.world).2).2).2).2,
                       calls := s.calls ++
                         [Call.deinit X, Call.init a, Call.init b, Call.init c] },
        ?_, rfl, ?_, ?_⟩
      · rw [hds]
        simp only [List.map_cons, ssusb_drivers_detect_walk]
        simp only [descriptor] at hsel hwalk ⊢
        rw [hsel]
        simpa using hwalk
      · intro h
        simp at h
      · intro Y hY
        have hXY : X = Y := by simpa using hY
        subst hXY
        simp [hr]
    · have hsel : ssusb_drivers_select cfg (some a.name) s
          = some (SSUSB_DESELECT_DEINIT_ERROR,
              { s with _device_driver := none, world := (X.deinit s.world).2,
                       calls := s.calls ++ [Call.deinit X] }) := by
        simp [ssusb_drivers_select, ssusb_drivers_deselect, hinit, hd, hr, hname_a]
      have hwalk := hfrom_b
        { s with _device_driver := none, world := (X.deinit s.world).2,
                 calls := s.calls ++ [Call.deinit X] } hinit rfl
      refine ⟨{ s with _device_driver := some c,
                       world := (c.init (b.init (X.deinit s.world).2).2).2,
                       calls := s.calls ++ [Call.deinit X, Call.init b, Call.init c] },
        ?_, rfl, ?_, ?_⟩
      · rw [hds]
        simp only [List.map_cons, ssusb_drivers_detect_walk]
        simp only [descriptor] at hsel hwalk ⊢
        rw [hsel]
        simpa using hwalk
      · intro h
        simp at h
      · intro Y hY
        have hXY : X = Y := by simpa using hY
        subst hXY
        simp [hr]

/-- Witness of the amended C9: the catalog in which only "c" can be
initialised, in a fresh session. -/
theorem C9_detect_third_only_witness :
    ∃ s1 : State Unit,
      ssusb_drivers_detect_select third_only_config (session third_only_config none)
        = some (SSUSB_OK, s1) ∧
      s1._device_driver = some (fixed_driver [99] 0 0) ∧
      ((session third_only_config none)._device_driver = none →
        s1.calls = [] ++ [Call.init (fixed_driver [97] 1 0), Call.init (fixed_driver [98] 1 0),
          Call.init (fixed_driver [99] 0 0)]) ∧
      (∀ X, (session third_only_config none)._device_driver = some X →
        s1.calls = [] ++
          (if (X.deinit ()).1 = 0 then
            [Call.deinit X, Call.init (fixed_driver [97] 1 0),
              Call.init (fixed_driver [98] 1 0), Call.init (fixed_driver [99] 0 0)]
          else [Call.deinit X, Call.init (fixed_driver [98] 1 0),
            Call.init (fixed_driver [99] 0 0)])) :=
  C9_detect_third_only third_only_config (fixed_driver [97] 1 0) (fixed_driver [98] 1 0)
    (fixed_driver [99] 0 0) [fixed_driver [100] 1 0] (session third_only_config none)
    rfl rfl rfl (by decide) (by decide) (by decide)
    (by simp [third_only_config, reference_config, fixed_driver, strncmp])
    (by simp [third_only_config, reference_config, fixed_driver, strncmp])
    (by simp [third_only_config, reference_config, fixed_driver, strncmp])
    (by intro w; simp [fixed_driver])
    (by intro w; simp [fixed_driver])
    (by intro w; simp [fixed_driver])

/-- C10 at its failing input: from program start, `ssusb_init` whose second
allocation fails returns `SSUSB_INIT_ERROR` and leaves the session
uninitialized with the one descriptor built so far still in the registry; a
following `ssusb_deinit` returns at its guard and the registry still holds
that descriptor, where the claim has it empty. -/
theorem C10_deinit_after_failed_init :
    ssusb_init abcd_config (fun k => decide (k = 0)) (State.start ())
      = some (SSUSB_INIT_ERROR,
          { State.start () with _driver_list := [{ name := [97], description := [] }] }) ∧
    ssusb_deinit
        ({ State.start () with _driver_list := [{ name := [97], description := [] }] } :
          State Unit)
      = some { State.start () with _driver_list := [{ name := [97], description := [] }] } := by
  constructor
  · simp [ssusb_init, ssusb_deinit, ssusb_init_walk, abcd_config, reference_config,
      State.start, descriptor, fixed_driver]
  · simp [ssusb_deinit, State.start]

/-! ## The allocation walk of `ssusb_init` -/

/-- When every allocation succeeds the walk links one descriptor per catalog
entry, in order; over an empty catalog it leaves `*driver_list` as it was. -/
theorem init_walk_ok {W : Type} (malloc_ok : Nat → Bool)
    (l : List (ssusb_device_driver_t W)) (k : Nat) (cur : List ssusb_driver_t)
    (h : ∀ i, i < l.length → malloc_ok (k + i) = true) :
    ssusb_init_walk malloc_ok l k cur
      = (if l.isEmpty then cur else l.map descriptor, true) := by
  cases l with
  | nil => simp [ssusb_init_walk]
  | cons d l =>
    rw [init_walk_all_ok malloc_ok (d :: l) k cur (by simp) h]
    simp

/-- When the allocation for the entry after `pre` is the first to fail, the
walk stops there and `*driver_list` holds the descriptors of `pre`. -/
theorem init_walk_fails_after {W : Type} (malloc_ok : Nat → Bool)
    (pre post : List (ssusb_device_driver_t W)) (d : ssusb_device_driver_t W)
    (k : Nat) (cur : List ssusb_driver_t)
    (hpre : ∀ i, i < pre.length → malloc_ok (k + i) = true)
    (hfail : malloc_ok (k + pre.length) = false) :
    ssusb_init_walk malloc_ok (pre ++ d :: post) k cur = (pre.map descriptor, false) := by
  induction pre generalizing k cur with
  | nil =>
    have h0 : malloc_ok k = false := by simpa using hfail
    simp [ssusb_init_walk, h0]
  | cons e pre ih =>
    have h0 : malloc_ok k = true := by simpa using hpre 0 (by simp)
    have hpre1 : ∀ i, i < pre.length → malloc_ok (k + 1 + i) = true := by
      intro i hi
      have := hpre (i + 1) (by simpa using hi)
      simpa [Nat.add_assoc, Nat.add_comm 1 i] using this
    have hfail1 : malloc_ok (k + 1 + pre.length) = false := by
      simpa [Nat.add_assoc, Nat.add_comm 1 pre.length] using hfail
    simp [ssusb_init_walk, h0, ih (k + 1) [] hpre1 hfail1]

/-- The walk reports failure as soon as one allocation fails. -/
theorem init_walk_fails {W : Type} (malloc_ok : Nat → Bool)
    (l : List (ssusb_device_driver_t W)) (k : Nat) (cur : List ssusb_driver_t)
    (h : ∃ i, i < l.length ∧ malloc_ok (k + i) = false) :
    (ssusb_init_walk malloc_ok l k cur).2 = false := by
  induction l generalizing k cur with
  | nil =>
    obtain ⟨i, hi, _⟩ := h
    simp at hi
  | cons e l ih =>
    by_cases h0 : malloc_ok k = true
    · obtain ⟨i, hi, hf⟩ := h
      cases i with
      | zero => simp [h0] at hf
      | succ j =>
        have hrest : ∃ i, i < l.length ∧ malloc_ok (k + 1 + i) = false :=
          ⟨j, by simpa using hi, by simpa [Nat.add_assoc, Nat.add_comm 1 j] using hf⟩
        simp [ssusb_init_walk, h0, ih (k + 1) [] hrest]
    · simp [ssusb_init_walk, h0]

/-- C11: in an initialized state with driver `X` active, `ssusb_init` with
every allocation succeeding invokes `X.deinit` (once, and no other lifecycle
call), returns `SSUSB_OK`, and leaves the session initialized with no active
driver and a registry that is the catalog's descriptors, one per entry and in
catalog order, whatever the registry held before. -/
theorem C11_reinit_with_active {W : Type} (cfg : Config W) (malloc_ok : Nat → Bool)
    (s : State W) (X : ssusb_device_driver_t W)
    (hinit : s._initialized = true) (hactive : s._device_driver = some X)
    (halloc : ∀ k, k < cfg._device_drivers.length → malloc_ok k = true) :
    ssusb_init cfg malloc_ok s
      = some (SSUSB_OK,
          { _initialized := true, _driver_list := cfg._device_drivers.map descriptor,
            _device_driver := none, world := (X.deinit s.world).2,
            calls := s.calls ++ [Call.deinit X] }) := by
  have hw := init_walk_ok malloc_ok cfg._device_drivers 0 []
    (fun i hi => by simpa using halloc i hi)
  have hw1 : ssusb_init_walk malloc_ok cfg._device_drivers 0 []
      = (cfg._device_drivers.map descriptor, true) := by
    rw [hw]
    cases cfg._device_drivers <;> simp
  simp [ssusb_init, deinit_total, hinit, hactive, hw1]

/-- Witness of C11: driver "b" active over a registry that is not the
catalog's, then `ssusb_init` again. -/
theorem C11_reinit_with_active_witness :
    ssusb_init abcd_config (fun _ => true)
        { session abcd_config (some (fixed_driver [98] 0 0)) with
            _driver_list := [{ name := [120], description := [] }] }
      = some (SSUSB_OK,
          { _initialized := true, _driver_list := abcd_config._device_drivers.map descriptor,
            _device_driver := none, world := ((fixed_driver [98] 0 0).deinit ()).2,
            calls := [] ++ [Call.deinit (fixed_driver [98] 0 0)] }) :=
  C11_reinit_with_active abcd_config (fun _ => true)
    { session abcd_config (some (fixed_driver [98] 0 0)) with
        _driver_list := [{ name := [120], description := [] }] }
    (fixed_driver [98] 0 0) rfl rfl (fun _ _ => rfl)

/-- C12 at its failing input: from program start, `ssusb_init` over the
reference catalog whose third allocation fails returns `SSUSB_INIT_ERROR` with
the two descriptors built before the failure still linked in the registry,
where the claim has the registry empty. -/
theorem C12_failed_init_keeps_built :
    ssusb_init abcd_config (fun k => decide (k < 2)) (State.start ())
      = some (SSUSB_INIT_ERROR,
          { State.start () with
              _driver_list := [{ name := [97], description := [] },
                { name := [98], description := [] }] }) := by
  simp [ssusb_init, ssusb_deinit, ssusb_init_walk, abcd_config, reference_config,
    State.start, descriptor, fixed_driver]

/-! ## Case analysis of the selection functions -/

theorem strncmp_zero_head (a b : CString) (n : Nat) (hn : 0 < n)
    (h : strncmp a b n = 0) : a.headD 0 = b.headD 0 := by
  cases n with
  | zero => exact absurd hn (by decide)
  | succ m =>
    by_contra hne
    rw [strncmp] at h
    simp only [ne_eq, hne, not_false_eq_true, if_true] at h
    exact hne (by omega)

theorem drivers_get_walk_some {W : Type} (n : Nat) (name : CString)
    (l : List (ssusb_device_driver_t W)) (d : ssusb_device_driver_t W)
    (h : _drivers_get_walk n name l = some d) :
    d ∈ l ∧ strncmp name d.name n = 0 := by
  induction l with
  | nil => simp [_drivers_get_walk] at h
  | cons e l ih =>
    by_cases he : strncmp name e.name n = 0
    · have hd : e = d := by simpa [_drivers_get_walk, he] using h
      subst hd
      exact ⟨by simp, he⟩
    · have hrest : _drivers_get_walk n name l = some d := by
        simpa [_drivers_get_walk, he] using h
      exact ⟨by simp [(ih hrest).1], (ih hrest).2⟩

/-- Every function that asserts `_initialized` aborts in an uninitialized
session. -/
theorem asserts_fail_uninitialized {W : Type} (cfg : Config W) (s : State W)
    (hinit : s._initialized = false) :
    ssusb_drivers_deselect s = none ∧
    (∀ name, ssusb_drivers_select cfg name s = none) ∧
    ssusb_drivers_detect_select cfg s = none ∧
    (∀ p, ssusb_drivers_list_get p s = none) ∧
    (∀ p, ssusb_drivers_selected_get p s = none) := by
  refine ⟨?_, ?_, ?_, ?_, ?_⟩
  · simp [ssusb_drivers_deselect, hinit]
  · intro name
    simp [ssusb_drivers_select, hinit]
  · simp [ssusb_drivers_detect_select, ssusb_drivers_list_get, hinit]
  · intro p
    simp [ssusb_drivers_list_get, hinit]
  · intro p
    simp [ssusb_drivers_selected_get, hinit]

/-- What `ssusb_drivers_deselect` does in an initialized session. -/
theorem deselect_cases {W : Type} (s : State W) (hinit : s._initialized = true) :
    ∃ (ret : ssusb_ret_t) (s1 : State W),
      ssusb_drivers_deselect s = some (ret, s1) ∧
      s1._initialized = true ∧ s1._driver_list = s._driver_list ∧
      s1._device_driver = none ∧
      (ret = SSUSB_OK ∨ ret = SSUSB_DESELECT_DEINIT_ERROR) := by
  cases hd : s._device_driver with
  | none =>
    exact ⟨SSUSB_OK, { s with _device_driver := none },
      by simp [ssusb_drivers_deselect, hinit, hd], hinit, rfl, rfl, Or.inl rfl⟩
  | some X =>
    by_cases hr : (X.deinit s.world).1 = 0
    · exact ⟨SSUSB_OK,
        { s with _device_driver := none, world := (X.deinit s.world).2,
                 calls := s.calls ++ [Call.deinit X] },
        by simp [ssusb_drivers_deselect, hinit, hd, hr], hinit, rfl, rfl, Or.inl rfl⟩
    · exact ⟨SSUSB_DESELECT_DEINIT_ERROR,
        { s with _device_driver := none, world := (X.deinit s.world).2,
                 calls := s.calls ++ [Call.deinit X] },
        by simp [ssusb_drivers_deselect, hinit, hd, hr], hinit, rfl, rfl, Or.inr rfl⟩

/-- What `ssusb_drivers_select` does in an initialized session: an invalid
name changes nothing; any other name ends with the looked-up driver active
and `SSUSB_OK`, or with no driver active and an error. -/
theorem select_cases {W : Type} (cfg : Config W) (driver_name : Option CString)
    (s : State W) (hinit : s._initialized = true) :
    ∃ (ret : ssusb_ret_t) (s1 : State W),
      ssusb_drivers_select cfg driver_name s = some (ret, s1) ∧
      s1._initialized = true ∧ s1._driver_list = s._driver_list ∧
      ((driver_name = none ∨ ∃ name, driver_name = some name ∧ name.headD 0 = 0) →
        ret = SSUSB_SELECT_INVALID_NAME ∧ s1 = s) ∧
      (∀ name, driver_name = some name → name.headD 0 ≠ 0 →
        (ret = SSUSB_OK ∧
          ∃ d, _drivers_get cfg name = some d ∧ s1._device_driver = some d) ∨
        (ret ≠ SSUSB_OK ∧ s1._device_driver = none)) := by
  cases driver_name with
  | none =>
    exact ⟨SSUSB_SELECT_INVALID_NAME, s, by simp [ssusb_drivers_select, hinit], hinit, rfl,
      fun _ => ⟨rfl, rfl⟩, fun name h => by simp at h⟩
  | some name =>
    by_cases hname : name.headD 0 = 0
    · refine ⟨SSUSB_SELECT_INVALID_NAME, s, ?_, hinit, rfl, fun _ => ⟨rfl, rfl⟩, ?_⟩
      · simp only [List.headD_eq_head?_getD] at hname
        simp [ssusb_drivers_select, hinit, hname]
      · intro n hn hne
        have hnn : name = n := by simpa using hn
        subst hnn
        exact absurd hname hne
    · have hinv : ¬ (some name = none ∨ ∃ n, some name = some n ∧ n.headD 0 = 0) := by
        rintro (h | ⟨n, hn, h0⟩)
        · simp at h
        · have hnn : name = n := by simpa using hn
          subst hnn
          exact hname h0
      have hname1 : (name.head?).getD 0 ≠ 0 := by
        simpa only [List.headD_eq_head?_getD] using hname
      obtain ⟨r0, s0, h0, hi0, hl0, hd0, hr0⟩ := deselect_cases s hinit
      rcases hr0 with rfl | rfl
      · cases hg : _drivers_get cfg name with
        | none =>
          refine ⟨SSUSB_SELECT_NOT_FOUND, s0, ?_, hi0, hl0, fun h => absurd h hinv, ?_⟩
          · simp [ssusb_drivers_select, hinit, hname1, h0, hg]
          · intro _ _ _
            exact Or.inr ⟨by decide, hd0⟩
        | some d =>
          by_cases hr : (d.init s0.world).1 = 0
          · refine ⟨SSUSB_OK,
              { s0 with _device_driver := some d, world := (d.init s0.world).2,
                        calls := s0.calls ++ [Call.init d] },
              ?_, hi0, hl0, fun h => absurd h hinv, ?_⟩
            · simp [ssusb_drivers_select, hinit, hname1, h0, hg, hr]
            · intro n hn _
              have hnn : name = n := by simpa using hn
              subst hnn
              exact Or.inl ⟨rfl, d, hg, rfl⟩
          · refine ⟨SSUSB_SELECT_INIT_ERROR,
              { s0 with world := (d.init s0.world).2, calls := s0.calls ++ [Call.init d] },
              ?_, hi0, hl0, fun h => absurd h hinv, ?_⟩
            · simp [ssusb_drivers_select, hinit, hname1, h0, hg, hr]
            · intro _ _ _
              exact Or.inr ⟨by decide, hd0⟩
      · refine ⟨SSUSB_DESELECT_DEINIT_ERROR, s0, ?_, hi0, hl0, fun h => absurd h hinv, ?_⟩
        · simp [ssusb_drivers_select, hinit, hname1, h0]
        · intro _ _ _
          exact Or.inr ⟨by decide, hd0⟩

/-- What the loop of `ssusb_drivers_detect_select` does in an initialized
session, from the node list `l` on. -/
theorem detect_walk_cases {W : Type} (cfg : Config W) (l : List ssusb_driver_t)
    (s : State W) (hinit : s._initialized = true) :
    ∃ (ret : ssusb_ret_t) (s1 : State W),
      ssusb_drivers_detect_walk cfg l s = some (ret, s1) ∧
      s1._initialized = true ∧ s1._driver_list = s._driver_list ∧
      (ret = SSUSB_OK ∨ ret = SSUSB_SELECT_NOT_FOUND) ∧
      (ret = SSUSB_OK →
        ∃ x ∈ l, x.name.headD 0 ≠ 0 ∧
          ∃ d, _drivers_get cfg x.name = some d ∧ s1._device_driver = some d) ∧
      (ret = SSUSB_SELECT_NOT_FOUND →
        s1._device_driver = none ∨ (s1 = s ∧ ∀ x ∈ l, x.name.headD 0 = 0)) ∧
      (ret = SSUSB_SELECT_NOT_FOUND ↔ ∀ r ∈ detect_attempts cfg l s, r ≠ SSUSB_OK) := by
  induction l generalizing s with
  | nil =>
    exact ⟨SSUSB_SELECT_NOT_FOUND, s, rfl, hinit, rfl, Or.inr rfl, fun h => by simp at h,
      fun _ => Or.inr ⟨rfl, by simp⟩, by simp [detect_attempts]⟩
  | cons x l ih =>
    obtain ⟨r1, s1, h1, hi1, hl1, hinv1, hval1⟩ := select_cases cfg (some x.name) s hinit
    by_cases hname : x.name.headD 0 = 0
    · obtain ⟨hr1, hs1⟩ := hinv1 (Or.inr ⟨x.name, rfl, hname⟩)
      subst hr1
      subst hs1
      obtain ⟨r2, s2, h2, hi2, hl2, hor2, hok2, hnf2, hatt2⟩ := ih s1 hinit
      refine ⟨r2, s2, ?_, hi2, hl2, hor2, ?_, ?_, ?_⟩
      · simp [ssusb_drivers_detect_walk, h1, h2]
      · intro hr
        obtain ⟨y, hy, hyn, hd⟩ := hok2 hr
        exact ⟨y, by simp [hy], hyn, hd⟩
      · intro hr
        rcases hnf2 hr with h | ⟨hs, hall⟩
        · exact Or.inl h
        · refine Or.inr ⟨hs, ?_⟩
          intro y hy
          rcases List.mem_cons.1 hy with rfl | hy1
          · exact hname
          · exact hall y hy1
      · simp [detect_attempts, h1, hatt2]
    · rcases hval1 x.name rfl hname with ⟨hr1, d, hg, hd⟩ | ⟨hr1, hd⟩
      · subst hr1
        refine ⟨SSUSB_OK, s1, ?_, hi1, hl1, Or.inl rfl, ?_, ?_, ?_⟩
        · simp [ssusb_drivers_detect_walk, h1]
        · intro _
          exact ⟨x, by simp, hname, d, hg, hd⟩
        · intro h
          simp at h
        · simp [detect_attempts, h1]
      · obtain ⟨r2, s2, h2, hi2, hl2, hor2, hok2, hnf2, hatt2⟩ := ih s1 hi1
        refine ⟨r2, s2, ?_, hi2, hl2.trans hl1, hor2, ?_, ?_, ?_⟩
        · simp [ssusb_drivers_detect_walk, h1, hr1, h2]
        · intro hr
          obtain ⟨y, hy, hyn, hd2⟩ := hok2 hr
          exact ⟨y, by simp [hy], hyn, hd2⟩
        · intro hr
          rcases hnf2 hr with h | ⟨hs, _⟩
          · exact Or.inl h
          · exact Or.inl (by rw [hs]; exact hd)
        · simp [detect_attempts, h1, hr1, hatt2]

/-- What `ssusb_drivers_detect_select` does in an initialized session. -/
theorem detect_select_cases {W : Type} (cfg : Config W) (s : State W)
    (hinit : s._initialized = true) :
    ∃ (ret : ssusb_ret_t) (s1 : State W),
      ssusb_drivers_detect_select cfg s = some (ret, s1) ∧
      s1._initialized = true ∧ s1._driver_list = s._driver_list ∧
      (ret = SSUSB_OK ∨ ret = SSUSB_SELECT_NOT_FOUND) ∧
      (ret = SSUSB_OK →
        ∃ x ∈ s._driver_list, x.name.headD 0 ≠ 0 ∧
          ∃ d, _drivers_get cfg x.name = some d ∧ s1._device_driver = some d) ∧
      (ret = SSUSB_SELECT_NOT_FOUND →
        s1._device_driver = none ∨ (s1 = s ∧ ∀ x ∈ s._driver_list, x.name.headD 0 = 0)) ∧
      (ret = SSUSB_SELECT_NOT_FOUND ↔
        ∀ r ∈ detect_attempts cfg s._driver_list s, r ≠ SSUSB_OK) := by
  have hlist : ssusb_drivers_list_get true s = some (SSUSB_OK, s._driver_list, s) := by
    simp [ssusb_drivers_list_get, hinit]
  have hds : ssusb_drivers_detect_select cfg s
      = ssusb_drivers_detect_walk cfg s._driver_list s := by
    unfold ssusb_drivers_detect_select
    rw [hlist]
  rw [hds]
  exact detect_walk_cases cfg s._driver_list s hinit

/-! ## The session invariant -/

theorem init_walk_true {W : Type} (malloc_ok : Nat → Bool)
    (l : List (ssusb_device_driver_t W)) (k : Nat) (cur : List ssusb_driver_t)
    (h : (ssusb_init_walk malloc_ok l k cur).2 = true) :
    (ssusb_init_walk malloc_ok l k cur).1 = if l.isEmpty then cur else l.map descriptor := by
  induction l generalizing k cur with
  | nil => simp [ssusb_init_walk]
  | cons d l ih =>
    by_cases h0 : malloc_ok k = true
    · have hrest : (ssusb_init_walk malloc_ok l (k + 1) []).2 = true := by
        simpa [ssusb_init_walk, h0] using h
      have := ih (k + 1) [] hrest
      cases l with
      | nil => simp [ssusb_init_walk, h0]
      | cons e l => simpa [ssusb_init_walk, h0] using this
    · simp [ssusb_init_walk, h0] at h

theorem lookup_inv {W : Type} (cfg : Config W) (name : CString)
    (d : ssusb_device_driver_t W) (hname : name.headD 0 ≠ 0)
    (h : _drivers_get cfg name = some d) :
    d ∈ cfg._device_drivers ∧ (0 < cfg.SSUSB_DRIVER_NAME_SIZE → d.name.headD 0 ≠ 0) := by
  obtain ⟨hmem, hcmp⟩ := drivers_get_walk_some _ _ _ _ h
  refine ⟨hmem, fun hn => ?_⟩
  rw [← strncmp_zero_head name d.name _ hn hcmp]
  exact hname

theorem deinit_inv {W : Type} (cfg : Config W) (s s0 : State W)
    (hinv : session_inv cfg s) (h : ssusb_deinit s = some s0) :
    session_inv cfg s0 ∧ s0._initialized = false ∧ s0._device_driver = none ∧
    (s._initialized = true → s0._driver_list = []) ∧
    (s._initialized = false → s0 = s) := by
  rw [deinit_total] at h
  have hs0 := Option.some.inj h
  obtain ⟨h1, h2, h3, h4⟩ := hinv
  cases hi : s._initialized with
  | false =>
    have he : s0 = s := by simpa [hi] using hs0.symm
    subst he
    exact ⟨⟨h1, h2, h3, h4⟩, hi, h1 hi, fun h => by simp [hi] at h, fun _ => rfl⟩
  | true =>
    cases hd : s._device_driver with
    | none =>
      have he : s0 = { s with _driver_list := [], _initialized := false } := by
        simpa [hi, hd] using hs0.symm
      subst he
      refine ⟨⟨fun _ => hd, ?_, ?_, fun _ => rfl⟩, rfl, hd, fun _ => rfl, fun h => by simp at h⟩
      · intro d hdd
        simp [hd] at hdd
      · intro h
        simp at h
    | some X =>
      have he : s0 =
          { s with _driver_list := [], _initialized := false, _device_driver := none,
                   world := (X.deinit s.world).2, calls := s.calls ++ [Call.deinit X] } := by
        simpa [hi, hd] using hs0.symm
      subst he
      refine ⟨⟨fun _ => rfl, ?_, ?_, fun _ => rfl⟩, rfl, rfl, fun _ => rfl, fun h => by simp at h⟩
      · intro d hdd
        simp at hdd
      · intro h
        simp at h

theorem init_inv {W : Type} (cfg : Config W) (malloc_ok : Nat → Bool) (s s1 : State W)
    (ret : ssusb_ret_t) (hinv : session_inv cfg s)
    (h : ssusb_init cfg malloc_ok s = some (ret, s1)) :
    session_inv cfg s1 ∧ s1._device_driver = none ∧
    ((ret = SSUSB_OK ∧ s1._initialized = true) ∨
      (ret = SSUSB_INIT_ERROR ∧ s1._initialized = false)) := by
  obtain ⟨s0, hs0⟩ : ∃ s0, ssusb_deinit s = some s0 := ⟨_, deinit_total s⟩
  obtain ⟨hinv0, hi0, hd0, hl0, _⟩ := deinit_inv cfg s s0 hinv hs0
  unfold ssusb_init at h
  rw [hs0] at h
  simp only at h
  by_cases hw : (ssusb_init_walk malloc_ok cfg._device_drivers 0 s0._driver_list).2 = true
  · simp only [hw, if_true, Option.some.injEq, Prod.mk.injEq] at h
    obtain ⟨hr, hs⟩ := h
    subst hr
    subst hs
    have hreg := init_walk_true malloc_ok cfg._device_drivers 0 s0._driver_list hw
    refine ⟨⟨fun h => by simp at h, ?_, ?_, ?_⟩, hd0, Or.inl ⟨rfl, rfl⟩⟩
    · intro d hdd
      simp [hd0] at hdd
    · intro _
      show (ssusb_init_walk malloc_ok cfg._device_drivers 0 s0._driver_list).1 = _
      rw [hreg]
      cases hc : cfg._device_drivers with
      | nil => simpa using hinv0.2.2.2 hc
      | cons e l => simp
    · intro hc
      show (ssusb_init_walk malloc_ok cfg._device_drivers 0 s0._driver_list).1 = _
      rw [hreg]
      simpa [hc] using hinv0.2.2.2 hc
  · simp only [hw, Bool.false_eq_true, if_false, Option.some.injEq, Prod.mk.injEq] at h
    obtain ⟨hr, hs⟩ := h
    subst hr
    subst hs
    refine ⟨⟨fun _ => hd0, ?_, ?_, ?_⟩, hd0, Or.inr ⟨rfl, hi0⟩⟩
    · intro d hdd
      simp [hd0] at hdd
    · intro h
      simp [hi0] at h
    · intro hc
      exfalso
      apply hw
      simp [hc, ssusb_init_walk]

theorem select_inv {W : Type} (cfg : Config W) (driver_name : Option CString)
    (s s1 : State W) (ret : ssusb_ret_t) (hinv : session_inv cfg s)
    (h : ssusb_drivers_select cfg driver_name s = some (ret, s1)) :
    session_inv cfg s1 := by
  have hinit : s._initialized = true := by
    cases hi : s._initialized with
    | true => rfl
    | false => simp [(asserts_fail_uninitialized cfg s hi).2.1] at h
  obtain ⟨r, t, ht, hti, htl, hbad, hgood⟩ := select_cases cfg driver_name s hinit
  rw [ht] at h
  obtain ⟨hr, hs⟩ : r = ret ∧ t = s1 := by simpa using h
  subst hr
  subst hs
  obtain ⟨h1, h2, h3, h4⟩ := hinv
  cases driver_name with
  | none =>
    obtain ⟨_, hs⟩ := hbad (Or.inl rfl)
    subst hs
    exact ⟨h1, h2, h3, h4⟩
  | some name =>
    by_cases hname : name.headD 0 = 0
    · obtain ⟨_, hs⟩ := hbad (Or.inr ⟨name, rfl, hname⟩)
      subst hs
      exact ⟨h1, h2, h3, h4⟩
    · refine ⟨fun h => by simp [hti] at h, ?_, fun _ => by rw [htl]; exact h3 hinit,
        fun hc => by rw [htl]; exact h4 hc⟩
      intro d hd
      rcases hgood name rfl hname with ⟨_, e, hg, he⟩ | ⟨_, hnone⟩
      · have hde : e = d := by simpa [he] using hd
        subst hde
        exact lookup_inv cfg name e hname hg
      · simp [hnone] at hd

theorem detect_walk_inv {W : Type} (cfg : Config W) (l : List ssusb_driver_t)
    (s s1 : State W) (ret : ssusb_ret_t) (hinv : session_inv cfg s)
    (h : ssusb_drivers_detect_walk cfg l s = some (ret, s1)) :
    session_inv cfg s1 := by
  induction l generalizing s with
  | nil =>
    have hs : s = s1 := by
      have := h
      simp [ssusb_drivers_detect_walk] at this
      exact this.2
    subst hs
    exact hinv
  | cons x l ih =>
    cases hsel : ssusb_drivers_select cfg (some x.name) s with
    | none => simp [ssusb_drivers_detect_walk, hsel] at h
    | some p =>
      obtain ⟨r, t⟩ := p
      have hinvt := select_inv cfg (some x.name) s t r hinv hsel
      by_cases hr : r = SSUSB_OK
      · have hs : t = s1 := by
          have := h
          simp [ssusb_drivers_detect_walk, hsel, hr] at this
          exact this.2
        subst hs
        exact hinvt
      · have hrest : ssusb_drivers_detect_walk cfg l t = some (ret, s1) := by
          simpa [ssusb_drivers_detect_walk, hsel, hr] using h
        exact ih t hinvt hrest

theorem step_inv {W : Type} (cfg : Config W) (op : Op) (s s1 : State W)
    (hinv : session_inv cfg s) (h : step cfg op s = some s1) : session_inv cfg s1 := by
  cases op with
  | init malloc_ok =>
    cases hr : ssusb_init cfg malloc_ok s with
    | none => simp [step, hr] at h
    | some p =>
      obtain ⟨r, t⟩ := p
      have hs : t = s1 := by simpa [step, hr] using h
      subst hs
      exact (init_inv cfg malloc_ok s t r hinv hr).1
  | deinit => exact (deinit_inv cfg s s1 hinv (by simpa [step] using h)).1
  | list_get =>
    cases hi : s._initialized with
    | false => simp [step, ssusb_drivers_list_get, hi] at h
    | true =>
      have hs : s = s1 := by simpa [step, ssusb_drivers_list_get, hi] using h
      subst hs
      exact hinv
  | select driver_name =>
    cases hr : ssusb_drivers_select cfg driver_name s with
    | none => simp [step, hr] at h
    | some p =>
      obtain ⟨r, t⟩ := p
      have hs : t = s1 := by simpa [step, hr] using h
      subst hs
      exact select_inv cfg driver_name s t r hinv hr
  | detect_select =>
    cases hi : s._initialized with
    | false => simp [step, (asserts_fail_uninitialized cfg s hi).2.2.1] at h
    | true =>
      cases hr : ssusb_drivers_detect_walk cfg s._driver_list s with
      | none =>
        simp [step, ssusb_drivers_detect_select, ssusb_drivers_list_get, hi, hr] at h
      | some p =>
        obtain ⟨r, t⟩ := p
        have hs : t = s1 := by
          simpa [step, ssusb_drivers_detect_select, ssusb_drivers_list_get, hi, hr] using h
        subst hs
        exact detect_walk_inv cfg s._driver_list s t r hinv hr
  | deselect =>
    cases hi : s._initialized with
    | false => simp [step, (asserts_fail_uninitialized cfg s hi).1] at h
    | true =>
      obtain ⟨r, t, ht, hti, htl, htd, _⟩ := deselect_cases s hi
      have hs : t = s1 := by simpa [step, ht] using h
      subst hs
      obtain ⟨_, _, h3, h4⟩ := hinv
      exact ⟨fun _ => htd, fun d hd => by simp [htd] at hd,
        fun _ => by rw [htl]; exact h3 hi, fun hc => by rw [htl]; exact h4 hc⟩
  | selected_get =>
    cases hi : s._initialized with
    | false => simp [step, ssusb_drivers_selected_get, hi] at h
    | true =>
      have hs : s = s1 := by simpa [step, ssusb_drivers_selected_get, hi] using h
      subst hs
      exact hinv

/-- The session invariant holds in every state a sequence of interface calls
reaches from program start. -/
theorem run_inv {W : Type} (cfg : Config W) (ops : List Op) (s s1 : State W)
    (hinv : session_inv cfg s) (h : run cfg ops s = some s1) : session_inv cfg s1 := by
  induction ops generalizing s with
  | nil =>
    have hs : s = s1 := by simpa [run] using h
    subst hs
    exact hinv
  | cons op ops ih =>
    cases hstep : step cfg op s with
    | none => simp [run, hstep] at h
    | some t =>
      have hrest : run cfg ops t = some s1 := by simpa [run, hstep] using h
      exact ih t (step_inv cfg op s t hinv hstep) hrest

theorem start_inv {W : Type} (cfg : Config W) (w : W) : session_inv cfg (State.start w) := by
  refine ⟨fun _ => rfl, ?_, ?_, fun _ => rfl⟩
  · intro d hd
    simp [State.start] at hd
  · intro h
    simp [State.start] at h

/-! ## The claims, continued -/

/-- C13: in every state the interface can reach from program start,
`ssusb_init` in which some descriptor allocation fails returns
`SSUSB_INIT_ERROR` and leaves the session uninitialized with no active
driver; a following `ssusb_init` whose allocations all succeed returns
`SSUSB_OK`, with the session initialized, no driver active and a registry that
is the catalog's descriptors in catalog order. -/
theorem C13_failed_init_then_retry {W : Type} (cfg : Config W) (ops : List Op) (w : W)
    (s : State W) (malloc_ok retry_ok : Nat → Bool)
    (hreach : run cfg ops (State.start w) = some s)
    (hfail : ∃ k, k < cfg._device_drivers.length ∧ malloc_ok k = false)
    (hretry : ∀ k, k < cfg._device_drivers.length → retry_ok k = true) :
    ∃ s1 s2 : State W,
      ssusb_init cfg malloc_ok s = some (SSUSB_INIT_ERROR, s1) ∧
      s1._initialized = false ∧ s1._device_driver = none ∧
      ssusb_init cfg retry_ok s1 = some (SSUSB_OK, s2) ∧
      s2._initialized = true ∧ s2._device_driver = none ∧
      s2._driver_list = cfg._device_drivers.map descriptor := by
  have hinv := run_inv cfg ops _ s (start_inv cfg w) hreach
  obtain ⟨s0, hs0⟩ : ∃ s0, ssusb_deinit s = some s0 := ⟨_, deinit_total s⟩
  obtain ⟨_, hi0, hd0, _, _⟩ := deinit_inv cfg s s0 hinv hs0
  have hw := init_walk_fails malloc_ok cfg._device_drivers 0 s0._driver_list
    (by simpa using hfail)
  have hne : cfg._device_drivers.isEmpty = false := by
    obtain ⟨k, hk, _⟩ := hfail
    cases hc : cfg._device_drivers with
    | nil => simp [hc] at hk
    | cons e l => rfl
  have hw2 := init_walk_ok retry_ok cfg._device_drivers 0
    (ssusb_init_walk malloc_ok cfg._device_drivers 0 s0._driver_list).1
    (fun i hi => by simpa using hretry i hi)
  refine ⟨{ s0 with
      _driver_list := (ssusb_init_walk malloc_ok cfg._device_drivers 0 s0._driver_list).1 },
    { s0 with _driver_list := cfg._device_drivers.map descriptor, _initialized := true },
    ?_, hi0, hd0, ?_, rfl, hd0, rfl⟩
  · simp [ssusb_init, hs0, hw]
  · simp [ssusb_init, ssusb_deinit, hi0, hw2, hne]

/-- Witness of C13: after `ssusb_init` and the selection of "a", an
`ssusb_init` whose second allocation fails, then a retry. -/
theorem C13_failed_init_then_retry_witness :
    ∃ s1 s2 : State Unit,
      ssusb_init abcd_config (fun k => decide (k = 0))
          { session abcd_config (some (fixed_driver [97] 0 0)) with
              calls := [Call.init (fixed_driver [97] 0 0)] }
        = some (SSUSB_INIT_ERROR, s1) ∧
      s1._initialized = false ∧ s1._device_driver = none ∧
      ssusb_init abcd_config (fun _ => true) s1 = some (SSUSB_OK, s2) ∧
      s2._initialized = true ∧ s2._device_driver = none ∧
      s2._driver_list = abcd_config._device_drivers.map descriptor :=
  C13_failed_init_then_retry abcd_config [Op.init (fun _ => true), Op.select (some [97])] ()
    { session abcd_config (some (fixed_driver [97] 0 0)) with
        calls := [Call.init (fixed_driver [97] 0 0)] }
    (fun k => decide (k = 0)) (fun _ => true)
    (by
      simp [run, step, ssusb_init, ssusb_deinit, ssusb_init_walk, ssusb_drivers_select,
        ssusb_drivers_deselect, _drivers_get, _drivers_get_walk, strncmp, abcd_config,
        reference_config, State.start, session, descriptor, fixed_driver])
    ⟨1, by decide, by decide⟩ (fun _ _ => rfl)

/-- C14: in every state reached from program start by any sequence of
`ssusb_init` (with any allocation outcomes), `ssusb_deinit`,
`ssusb_drivers_select`, `ssusb_drivers_deselect` and
`ssusb_drivers_detect_select` calls (and of the two getters) none of which
fails an assertion, over any drivers, a driver is active only if the session is
initialized, and the active driver, when present, is an entry of the
catalog. -/
theorem C14_active_only_if_initialized {W : Type} (cfg : Config W) (ops : List Op) (w : W)
    (s : State W) (hreach : run cfg ops (State.start w) = some s) :
    (∀ d, s._device_driver = some d → s._initialized = true) ∧
    (∀ d, s._device_driver = some d → d ∈ cfg._device_drivers) := by
  obtain ⟨h1, h2, _, _⟩ := run_inv cfg ops _ s (start_inv cfg w) hreach
  constructor
  · intro d hd
    cases hi : s._initialized with
    | true => rfl
    | false => simp [h1 hi] at hd
  · intro d hd
    exact (h2 d hd).1

/-- Witness of C14: `ssusb_init`, then the selection of "a". -/
theorem C14_active_only_if_initialized_witness :
    (∀ d, ({ session abcd_config (some (fixed_driver [97] 0 0)) with
          calls := [Call.init (fixed_driver [97] 0 0)] } : State Unit)._device_driver
        = some d →
      ({ session abcd_config (some (fixed_driver [97] 0 0)) with
          calls := [Call.init (fixed_driver [97] 0 0)] } : State Unit)._initialized = true) ∧
    (∀ d, ({ session abcd_config (some (fixed_driver [97] 0 0)) with
          calls := [Call.init (fixed_driver [97] 0 0)] } : State Unit)._device_driver
        = some d →
      d ∈ abcd_config._device_drivers) :=
  C14_active_only_if_initialized abcd_config
    [Op.init (fun _ => true), Op.select (some [97])] ()
    { session abcd_config (some (fixed_driver [97] 0 0)) with
        calls := [Call.init (fixed_driver [97] 0 0)] }
    (by
      simp [run, step, ssusb_init, ssusb_deinit, ssusb_init_walk, ssusb_drivers_select,
        ssusb_drivers_deselect, _drivers_get, _drivers_get_walk, strncmp, abcd_config,
        reference_config, State.start, session, descriptor, fixed_driver])

/-- C15: in an initialized state, whatever they return,
`ssusb_drivers_select`, `ssusb_drivers_deselect` and
`ssusb_drivers_detect_select` leave the registry (its descriptors and their
order) and the initialized flag as they were; `ssusb_drivers_list_get` and
`ssusb_drivers_selected_get` return `SSUSB_OK`, yield the registry and the
active driver, and leave the whole state, the active driver included, as it
was. -/
theorem C15_registry_frame {W : Type} (cfg : Config W) (driver_name : Option CString)
    (s : State W) (hinit : s._initialized = true) :
    (∃ (ret : ssusb_ret_t) (s1 : State W),
      ssusb_drivers_select cfg driver_name s = some (ret, s1) ∧
      s1._driver_list = s._driver_list ∧ s1._initialized = s._initialized) ∧
    (∃ (ret : ssusb_ret_t) (s1 : State W),
      ssusb_drivers_deselect s = some (ret, s1) ∧
      s1._driver_list = s._driver_list ∧ s1._initialized = s._initialized) ∧
    (∃ (ret : ssusb_ret_t) (s1 : State W),
      ssusb_drivers_detect_select cfg s = some (ret, s1) ∧
      s1._driver_list = s._driver_list ∧ s1._initialized = s._initialized) ∧
    ssusb_drivers_list_get true s = some (SSUSB_OK, s._driver_list, s) ∧
    ssusb_drivers_selected_get true s = some (SSUSB_OK, s._device_driver, s) := by
  refine ⟨?_, ?_, ?_, ?_, ?_⟩
  · obtain ⟨r, t, ht, hti, htl, _, _⟩ := select_cases cfg driver_name s hinit
    exact ⟨r, t, ht, htl, by rw [hti, hinit]⟩
  · obtain ⟨r, t, ht, hti, htl, _, _⟩ := deselect_cases s hinit
    exact ⟨r, t, ht, htl, by rw [hti, hinit]⟩
  · obtain ⟨r, t, ht, hti, htl, _, _⟩ := detect_select_cases cfg s hinit
    exact ⟨r, t, ht, htl, by rw [hti, hinit]⟩
  · simp [ssusb_drivers_list_get, hinit]
  · simp [ssusb_drivers_selected_get, hinit]

/-- Witness of C15: the name "c" in a session with driver "a", whose `deinit`
fails, active. -/
theorem C15_registry_frame_witness :
    (∃ (ret : ssusb_ret_t) (s1 : State Unit),
      ssusb_drivers_select stubborn_config (some [99])
          (session stubborn_config (some (fixed_driver [97] 0 1))) = some (ret, s1) ∧
      s1._driver_list = (session stubborn_config (some (fixed_driver [97] 0 1)))._driver_list ∧
      s1._initialized
        = (session stubborn_config (some (fixed_driver [97] 0 1)))._initialized) ∧
    (∃ (ret : ssusb_ret_t) (s1 : State Unit),
      ssusb_drivers_deselect (session stubborn_config (some (fixed_driver [97] 0 1)))
        = some (ret, s1) ∧
      s1._driver_list = (session stubborn_config (some (fixed_driver [97] 0 1)))._driver_list ∧
      s1._initialized
        = (session stubborn_config (some (fixed_driver [97] 0 1)))._initialized) ∧
    (∃ (ret : ssusb_ret_t) (s1 : State Unit),
      ssusb_drivers_detect_select stubborn_config
          (session stubborn_config (some (fixed_driver [97] 0 1))) = some (ret, s1) ∧
      s1._driver_list = (session stubborn_config (some (fixed_driver [97] 0 1)))._driver_list ∧
      s1._initialized
        = (session stubborn_config (some (fixed_driver [97] 0 1)))._initialized) ∧
    ssusb_drivers_list_get true (session stubborn_config (some (fixed_driver [97] 0 1)))
      = some (SSUSB_OK,
          (session stubborn_config (some (fixed_driver [97] 0 1)))._driver_list,
          session stubborn_config (some (fixed_driver [97] 0 1))) ∧
    ssusb_drivers_selected_get true (session stubborn_config (some (fixed_driver [97] 0 1)))
      = some (SSUSB_OK,
          (session stubborn_config (some (fixed_driver [97] 0 1)))._device_driver,
          session stubborn_config (some (fixed_driver [97] 0 1))) :=
  C15_registry_frame stubborn_config (some [99])
    (session stubborn_config (some (fixed_driver [97] 0 1))) rfl

/-- C16: in every initialized state the interface can reach from program
start, names being compared over at least one byte or all catalog names being
non-empty, `ssusb_drivers_detect_select` returns `SSUSB_OK` or
`SSUSB_SELECT_NOT_FOUND` and nothing else; it returns
`SSUSB_SELECT_NOT_FOUND` exactly when every select attempt it made over the
registry failed (none, over an empty registry); and it returns `SSUSB_OK` if
and only if a driver is active after the call.  In particular a detection in
which every attempt fails leaves no driver active, even if one was active
before the call. -/
theorem C16_detect_result {W : Type} (cfg : Config W) (ops : List Op) (w : W)
    (s : State W) (hreach : run cfg ops (State.start w) = some s)
    (hinit : s._initialized = true)
    (hnames : 0 < cfg.SSUSB_DRIVER_NAME_SIZE ∨
      ∀ d ∈ cfg._device_drivers, d.name.headD 0 ≠ 0) :
    ∃ (ret : ssusb_ret_t) (s1 : State W),
      ssusb_drivers_detect_select cfg s = some (ret, s1) ∧
      (ret = SSUSB_OK ∨ ret = SSUSB_SELECT_NOT_FOUND) ∧
      (ret = SSUSB_SELECT_NOT_FOUND ↔
        ∀ r ∈ detect_attempts cfg s._driver_list s, r ≠ SSUSB_OK) ∧
      (ret = SSUSB_OK ↔ ∃ d, s1._device_driver = some d) ∧
      (ret = SSUSB_SELECT_NOT_FOUND → s1._device_driver = none) := by
  obtain ⟨_, h2, h3, _⟩ := run_inv cfg ops _ s (start_inv cfg w) hreach
  have hact : ∀ D, s._device_driver = some D →
      ∃ x ∈ s._driver_list, x.name.headD 0 ≠ 0 := by
    intro D hD
    obtain ⟨hmem, hsize⟩ := h2 D hD
    refine ⟨descriptor D, ?_, ?_⟩
    · rw [h3 hinit]
      exact List.mem_map_of_mem descriptor hmem
    · rcases hnames with hn | hall
      · exact hsize hn
      · exact hall D hmem
  obtain ⟨r, t, ht, _, _, hor, hok, hnf, hatt⟩ := detect_select_cases cfg s hinit
  have hnone : r = SSUSB_SELECT_NOT_FOUND → t._device_driver = none := by
    intro hr
    rcases hnf hr with h | ⟨hts, hall⟩
    · exact h
    · subst hts
      cases hd : t._device_driver with
      | none => rfl
      | some D =>
        obtain ⟨x, hx, hxn⟩ := hact D hd
        exact absurd (hall x hx) hxn
  refine ⟨r, t, ht, hor, hatt, ?_, hnone⟩
  constructor
  · intro hr
    obtain ⟨_, _, _, d, _, hd⟩ := hok hr
    exact ⟨d, hd⟩
  · rintro ⟨d, hd⟩
    rcases hor with hr | hr
    · exact hr
    · simp [hnone hr] at hd

/-- Witness of C16: detection after `ssusb_init` and the selection of "a". -/
theorem C16_detect_result_witness :
    ∃ (ret : ssusb_ret_t) (s1 : State Unit),
      ssusb_drivers_detect_select abcd_config
          { session abcd_config (some (fixed_driver [97] 0 0)) with
              calls := [Call.init (fixed_driver [97] 0 0)] } = some (ret, s1) ∧
      (ret = SSUSB_OK ∨ ret = SSUSB_SELECT_NOT_FOUND) ∧
      (ret = SSUSB_SELECT_NOT_FOUND ↔
        ∀ r ∈ detect_attempts abcd_config
            ({ session abcd_config (some (fixed_driver [97] 0 0)) with
                calls := [Call.init (fixed_driver [97] 0 0)] } : State Unit)._driver_list
            { session abcd_config (some (fixed_driver [97] 0 0)) with
                calls := [Call.init (fixed_driver [97] 0 0)] },
          r ≠ SSUSB_OK) ∧
      (ret = SSUSB_OK ↔ ∃ d, s1._device_driver = some d) ∧
      (ret = SSUSB_SELECT_NOT_FOUND → s1._device_driver = none) :=
  C16_detect_result abcd_config [Op.init (fun _ => true), Op.select (some [97])] ()
    { session abcd_config (some (fixed_driver [97] 0 0)) with
        calls := [Call.init (fixed_driver [97] 0 0)] }
    (by
      simp [run, step, ssusb_init, ssusb_deinit, ssusb_init_walk, ssusb_drivers_select,
        ssusb_drivers_deselect, _drivers_get, _drivers_get_walk, strncmp, abcd_config,
        reference_config, State.start, session, descriptor, fixed_driver])
    rfl (Or.inl (by decide))

/-! ## The bounded comparison -/

/-- On strings without an embedded NUL, `strncmp` returns 0 exactly when the
first `n` characters of the two strings are the same. -/
theorem strncmp_eq_zero_iff (a b : CString) (n : Nat) (ha : 0 ∉ a) (hb : 0 ∉ b) :
    strncmp a b n = 0 ↔ a.take n = b.take n := by
  induction n generalizing a b with
  | zero => simp [strncmp]
  | succ n ih =>
    cases a with
    | nil =>
      cases b with
      | nil => simp [strncmp]
      | cons y bs =>
        have hy : y ≠ 0 := fun h => hb (by simp [h])
        have hy1 : ¬ (0 = y) := fun h => hy h.symm
        rw [strncmp]
        simp only [List.headD_nil, List.headD_cons, ne_eq, hy1, not_false_eq_true, if_true]
        constructor
        · intro h
          exact absurd (by omega : y = 0) hy
        · intro h
          simp at h
    | cons x as =>
      have hx : x ≠ 0 := fun h => ha (by simp [h])
      have has : 0 ∉ as := fun h => ha (by simp [h])
      cases b with
      | nil =>
        rw [strncmp]
        simp only [List.headD_nil, List.headD_cons, ne_eq, hx, not_false_eq_true, if_true]
        constructor
        · intro h
          exact absurd (by omega : x = 0) hx
        · intro h
          simp at h
      | cons y bs =>
        have hbs : 0 ∉ bs := fun h => hb (by simp [h])
        rw [strncmp]
        by_cases hxy : x = y
        · subst hxy
          simp only [List.headD_cons, ne_eq, not_true_eq_false, if_false, hx, List.tail_cons,
            List.take_succ_cons, List.cons.injEq, true_and]
          exact ih as bs has hbs
        · simp only [List.headD_cons, ne_eq, hxy, not_false_eq_true, if_true,
            List.take_succ_cons, List.cons.injEq, false_and, iff_false]
          omega

/-- A string shorter than the bound agrees only with itself. -/
theorem take_eq_of_short (a b : CString) (n : Nat) (hlen : a.length < n ∨ b.length < n) :
    a.take n = b.take n ↔ a = b := by
  constructor
  · intro h
    have hl := congrArg List.length h
    simp only [List.length_take] at hl
    have ha : a.length ≤ n := by omega
    have hb : b.length ≤ n := by omega
    rw [List.take_of_length_le ha, List.take_of_length_le hb] at h
    exact h
  · intro h
    rw [h]

theorem names_agree_iff (a b : CString) (n : Nat) (ha : 0 ∉ a) (hb : 0 ∉ b) :
    names_agree n a b = true ↔ strncmp a b n = 0 := by
  rw [strncmp_eq_zero_iff a b n ha hb]
  simp [names_agree]

theorem drivers_get_walk_first {W : Type} (n : Nat) (name : CString)
    (l : List (ssusb_device_driver_t W)) (d : ssusb_device_driver_t W)
    (h : _drivers_get_walk n name l = some d) :
    ∃ pre post, l = pre ++ d :: post ∧ strncmp name d.name n = 0 ∧
      ∀ x ∈ pre, strncmp name x.name n ≠ 0 := by
  induction l with
  | nil => simp [_drivers_get_walk] at h
  | cons e l ih =>
    by_cases he : strncmp name e.name n = 0
    · have hd : e = d := by simpa [_drivers_get_walk, he] using h
      subst hd
      exact ⟨[], l, rfl, he, by simp⟩
    · have hrest : _drivers_get_walk n name l = some d := by
        simpa [_drivers_get_walk, he] using h
      obtain ⟨pre, post, hl, hd, hpre⟩ := ih hrest
      refine ⟨e :: pre, post, by simp [hl], hd, ?_⟩
      intro x hx
      rcases List.mem_cons.1 hx with rfl | hx1
      · exact he
      · exact hpre x hx1

theorem drivers_get_walk_eq_find {W : Type} (n : Nat) (name : CString)
    (l : List (ssusb_device_driver_t W)) (hname : 0 ∉ name)
    (hl : ∀ d ∈ l, 0 ∉ d.name) :
    _drivers_get_walk n name l = l.find? (fun d => names_agree n name d.name) := by
  induction l with
  | nil => rfl
  | cons e l ih =>
    have he := names_agree_iff name e.name n hname (hl e (by simp))
    have hrest := ih (fun d hd => hl d (by simp [hd]))
    by_cases hc : strncmp name e.name n = 0
    · simp [_drivers_get_walk, List.find?, hc, he.2 hc]
    · have hf : names_agree n name e.name = false := by
        cases hag : names_agree n name e.name with
        | false => rfl
        | true => exact absurd (he.1 hag) hc
      simp [_drivers_get_walk, List.find?, hc, hf, hrest]

/-- C17: for every name and every catalog (names being C strings, without an
embedded NUL), `_drivers_get` is the lookup of the specification: it returns
the first entry, in catalog order, whose name agrees with the requested name
on the first `SSUSB_DRIVER_NAME_SIZE` characters, and returns no entry exactly
when no catalog entry agrees.  When the requested name or the entry's name is
shorter than the bound, agreeing is being the same string, so a proper prefix
or extension of a catalog name is not matched. -/
theorem C17_lookup_first_match {W : Type} (cfg : Config W) (driver_name : CString)
    (hname : 0 ∉ driver_name) (hcat : ∀ d ∈ cfg._device_drivers, 0 ∉ d.name) :
    _drivers_get cfg driver_name = lookup_spec cfg driver_name ∧
    (∀ d, _drivers_get cfg driver_name = some d →
      ∃ pre post, cfg._device_drivers = pre ++ d :: post ∧
        names_agree cfg.SSUSB_DRIVER_NAME_SIZE driver_name d.name = true ∧
        ∀ x ∈ pre, names_agree cfg.SSUSB_DRIVER_NAME_SIZE driver_name x.name = false) ∧
    (_drivers_get cfg driver_name = none ↔
      ∀ d ∈ cfg._device_drivers,
        names_agree cfg.SSUSB_DRIVER_NAME_SIZE driver_name d.name = false) ∧
    (∀ d ∈ cfg._device_drivers,
      driver_name.length < cfg.SSUSB_DRIVER_NAME_SIZE ∨
          d.name.length < cfg.SSUSB_DRIVER_NAME_SIZE →
        (names_agree cfg.SSUSB_DRIVER_NAME_SIZE driver_name d.name = true ↔
          driver_name = d.name)) := by
  have hfalse : ∀ d ∈ cfg._device_drivers,
      (names_agree cfg.SSUSB_DRIVER_NAME_SIZE driver_name d.name = false ↔
        strncmp driver_name d.name cfg.SSUSB_DRIVER_NAME_SIZE ≠ 0) := by
    intro d hd
    have h := names_agree_iff driver_name d.name cfg.SSUSB_DRIVER_NAME_SIZE hname (hcat d hd)
    constructor
    · intro hf hc
      rw [h.2 hc] at hf
      exact absurd hf (by decide)
    · intro hc
      cases hag : names_agree cfg.SSUSB_DRIVER_NAME_SIZE driver_name d.name with
      | false => rfl
      | true => exact absurd (h.1 hag) hc
  refine ⟨drivers_get_walk_eq_find _ _ _ hname hcat, ?_, ?_, ?_⟩
  · intro d hd
    obtain ⟨pre, post, hl, hcmp, hpre⟩ := drivers_get_walk_first _ _ _ _ hd
    have hdm : d ∈ cfg._device_drivers := by simp [hl]
    refine ⟨pre, post, hl, (names_agree_iff _ _ _ hname (hcat d hdm)).2 hcmp, ?_⟩
    intro x hx
    have hxm : x ∈ cfg._device_drivers := by simp [hl, hx]
    exact (hfalse x hxm).2 (hpre x hx)
  · unfold _drivers_get
    rw [drivers_get_walk_none]
    constructor
    · intro h d hd
      exact (hfalse d hd).2 (h d hd)
    · intro h d hd
      exact (hfalse d hd).1 (h d hd)
  · intro d _ hlen
    rw [← take_eq_of_short driver_name d.name cfg.SSUSB_DRIVER_NAME_SIZE hlen]
    simp [names_agree]

/-- Witness of C17: the name "ab", an extension of the catalog name "a". -/
theorem C17_lookup_first_match_witness :
    _drivers_get abcd_config [97, 98] = lookup_spec abcd_config [97, 98] ∧
    (∀ d, _drivers_get abcd_config [97, 98] = some d →
      ∃ pre post, abcd_config._device_drivers = pre ++ d :: post ∧
        names_agree abcd_config.SSUSB_DRIVER_NAME_SIZE [97, 98] d.name = true ∧
        ∀ x ∈ pre, names_agree abcd_config.SSUSB_DRIVER_NAME_SIZE [97, 98] x.name = false) ∧
    (_drivers_get abcd_config [97, 98] = none ↔
      ∀ d ∈ abcd_config._device_drivers,
        names_agree abcd_config.SSUSB_DRIVER_NAME_SIZE [97, 98] d.name = false) ∧
    (∀ d ∈ abcd_config._device_drivers,
      List.length [97, 98] < abcd_config.SSUSB_DRIVER_NAME_SIZE ∨
          d.name.length < abcd_config.SSUSB_DRIVER_NAME_SIZE →
        (names_agree abcd_config.SSUSB_DRIVER_NAME_SIZE [97, 98] d.name = true ↔
          [97, 98] = d.name)) :=
  C17_lookup_first_match abcd_config [97, 98] (by decide) (by
    intro d hd
    simp [abcd_config, reference_config] at hd
    rcases hd with rfl | rfl | rfl | rfl <;> simp [fixed_driver])

/-- C18: no assertion fails in `ssusb_init` or `ssusb_deinit`, in any state
(the `assert(_initialized)` of the nested deselect is reached only with the
flag set); and in an initialized state no assertion fails in
`ssusb_drivers_select`, `ssusb_drivers_deselect`,
`ssusb_drivers_detect_select` (nested `list_get` and selects included) nor,
given a non-NULL output pointer, in `ssusb_drivers_list_get` and
`ssusb_drivers_selected_get`: each call returns. -/
theorem C18_no_assertion_fails {W : Type} (cfg : Config W) (malloc_ok : Nat → Bool)
    (driver_name : Option CString) (s : State W) :
    (ssusb_init cfg malloc_ok s).isSome = true ∧
    (ssusb_deinit s).isSome = true ∧
    (s._initialized = true →
      (ssusb_drivers_select cfg driver_name s).isSome = true ∧
      (ssusb_drivers_deselect s).isSome = true ∧
      (ssusb_drivers_detect_select cfg s).isSome = true ∧
      (ssusb_drivers_list_get true s).isSome = true ∧
      (ssusb_drivers_selected_get true s).isSome = true) := by
  refine ⟨?_, ?_, ?_⟩
  · obtain ⟨s0, hs0⟩ : ∃ s0, ssusb_deinit s = some s0 := ⟨_, deinit_total s⟩
    unfold ssusb_init
    rw [hs0]
    by_cases hw : (ssusb_init_walk malloc_ok cfg._device_drivers 0 s0._driver_list).2 = true
    · simp [hw]
    · simp [hw]
  · rw [deinit_total]
    rfl
  · intro hinit
    obtain ⟨_, _, h1, _⟩ := select_cases cfg driver_name s hinit
    obtain ⟨_, _, h2, _⟩ := deselect_cases s hinit
    obtain ⟨_, _, h3, _⟩ := detect_select_cases cfg s hinit
    refine ⟨by rw [h1]; rfl, by rw [h2]; rfl, by rw [h3]; rfl, ?_, ?_⟩
    · simp [ssusb_drivers_list_get, hinit]
    · simp [ssusb_drivers_selected_get, hinit]

/-! ## Detection behind a driver that will not deinitialise -/

/-- With no driver active, `ssusb_drivers_select` makes no lifecycle call or
exactly the `init` of the driver the name resolves to. -/
theorem select_calls_idle {W : Type} (cfg : Config W) (name : CString) (t : State W)
    (hinit : t._initialized = true) (hnone : t._device_driver = none) :
    ∃ (ret : ssusb_ret_t) (t1 : State W),
      ssusb_drivers_select cfg (some name) t = some (ret, t1) ∧
      t1._initialized = true ∧ (ret ≠ SSUSB_OK → t1._device_driver = none) ∧
      (t1.calls = t.calls ∨
        ∃ d, _drivers_get cfg name = some d ∧ t1.calls = t.calls ++ [Call.init d]) := by
  by_cases hname : (name.head?).getD 0 = 0
  · exact ⟨SSUSB_SELECT_INVALID_NAME, t, by simp [ssusb_drivers_select, hinit, hname], hinit,
      fun _ => hnone, Or.inl rfl⟩
  · cases hg : _drivers_get cfg name with
    | none =>
      exact ⟨SSUSB_SELECT_NOT_FOUND, { t with _device_driver := none },
        by simp [ssusb_drivers_select, ssusb_drivers_deselect, hinit, hnone, hname, hg],
        hinit, fun _ => rfl, Or.inl rfl⟩
    | some d =>
      by_cases hr : (d.init t.world).1 = 0
      · exact ⟨SSUSB_OK,
          { t with _device_driver := some d, world := (d.init t.world).2,
                   calls := t.calls ++ [Call.init d] },
          by simp [ssusb_drivers_select, ssusb_drivers_deselect, hinit, hnone, hname, hg, hr],
          hinit, fun h => absurd rfl h, Or.inr ⟨d, rfl, rfl⟩⟩
      · exact ⟨SSUSB_SELECT_INIT_ERROR,
          { t with _device_driver := none, world := (d.init t.world).2,
                   calls := t.calls ++ [Call.init d] },
          by simp [ssusb_drivers_select, ssusb_drivers_deselect, hinit, hnone, hname, hg, hr],
          hinit, fun _ => rfl, Or.inr ⟨d, rfl, rfl⟩⟩

/-- With no driver active, the lifecycle calls of the detection walk over `l`
are `init` calls on drivers that names of `l` resolve to. -/
theorem detect_walk_calls_idle {W : Type} (cfg : Config W) (l : List ssusb_driver_t)
    (t : State W) (hinit : t._initialized = true) (hnone : t._device_driver = none) :
    ∃ (ret : ssusb_ret_t) (t1 : State W) (tail : List (Call W)),
      ssusb_drivers_detect_walk cfg l t = some (ret, t1) ∧
      t1.calls = t.calls ++ tail ∧
      ∀ c ∈ tail, ∃ x ∈ l, ∃ d, _drivers_get cfg x.name = some d ∧ c = Call.init d := by
  induction l generalizing t with
  | nil => exact ⟨SSUSB_SELECT_NOT_FOUND, t, [], rfl, by simp, by simp⟩
  | cons x l ih =>
    obtain ⟨r, t1, h1, hi1, hn1, hc1⟩ := select_calls_idle cfg x.name t hinit hnone
    have htail1 : ∃ tail1 : List (Call W), t1.calls = t.calls ++ tail1 ∧
        ∀ c ∈ tail1, ∃ d, _drivers_get cfg x.name = some d ∧ c = Call.init d := by
      rcases hc1 with h | ⟨d, hg, h⟩
      · exact ⟨[], by simp [h], by simp⟩
      · exact ⟨[Call.init d], h, fun c hc => ⟨d, hg, by simpa using hc⟩⟩
    obtain ⟨tail1, ht1, hall1⟩ := htail1
    by_cases hr : r = SSUSB_OK
    · refine ⟨SSUSB_OK, t1, tail1, ?_, ht1, ?_⟩
      · simp [ssusb_drivers_detect_walk, h1, hr]
      · intro c hc
        obtain ⟨d, hg, hcd⟩ := hall1 c hc
        exact ⟨x, by simp, d, hg, hcd⟩
    · obtain ⟨r2, t2, tail2, h2, ht2, hall2⟩ := ih t1 hi1 (hn1 hr)
      refine ⟨r2, t2, tail1 ++ tail2, ?_, ?_, ?_⟩
      · simp [ssusb_drivers_detect_walk, h1, hr, h2]
      · rw [ht2, ht1, List.append_assoc]
      · intro c hc
        rcases List.mem_append.1 hc with hc1 | hc2
        · obtain ⟨d, hg, hcd⟩ := hall1 c hc1
          exact ⟨x, by simp, d, hg, hcd⟩
        · obtain ⟨y, hy, d, hg, hcd⟩ := hall2 c hc2
          exact ⟨y, by simp [hy], d, hg, hcd⟩

/-- C19, as stated, fails whatever the value `n` of `SSUSB_DRIVER_NAME_SIZE`:
over `shared_head_config n 1`, whose two names are non-empty and different,
with the first driver active and its `deinit` returning 1, detection does
invoke `init` on the first registry entry.  The attempt for the first entry
fails with the deselect error; the attempt for the second name resolves to the
first entry, with which it shares its first `n` bytes, so the calls are
`deinit` and then `init` of the first driver, which ends active. -/
theorem C19_detect_skips_first_counterexample :
    (∀ n : Nat, ∀ d ∈ (shared_head_config n 1)._device_drivers, d.name.headD 0 ≠ 0) ∧
    (∀ n : Nat, ((shared_head_config n 1)._device_drivers.map (fun d => d.name)).Nodup) ∧
    (∀ n : Nat,
      ((fixed_driver (List.replicate n 97 ++ [120]) 0 1).deinit ()).1 ≠ 0) ∧
    (∀ n : Nat,
      ssusb_drivers_detect_select (shared_head_config n 1)
          (session (shared_head_config n 1)
            (some (fixed_driver (List.replicate n 97 ++ [120]) 0 1)))
        = some (SSUSB_OK,
            { session (shared_head_config n 1)
                (some (fixed_driver (List.replicate n 97 ++ [120]) 0 1)) with
                calls := [Call.deinit (fixed_driver (List.replicate n 97 ++ [120]) 0 1),
                  Call.init (fixed_driver (List.replicate n 97 ++ [120]) 0 1)] })) := by
  refine ⟨?_, ?_, ?_, ?_⟩
  · intro n d hd
    simp [shared_head_config] at hd
    rcases hd with rfl | rfl <;> cases n <;> simp [fixed_driver, List.replicate_succ]
  · intro n
    simp [shared_head_config, fixed_driver]
  · intro n
    simp [fixed_driver]
  · intro n
    cases n with
    | zero =>
      simp [ssusb_drivers_detect_select, ssusb_drivers_list_get, ssusb_drivers_detect_walk,
        ssusb_drivers_select, ssusb_drivers_deselect, _drivers_get, _drivers_get_walk,
        shared_head_config, session, descriptor, fixed_driver, strncmp]
    | succ m =>
      have h : strncmp (97 :: (List.replicate m 97 ++ [121]))
          (97 :: (List.replicate m 97 ++ [120])) (m + 1) = 0 := by
        simpa [List.replicate_succ] using
          strncmp_replicate_append (m + 1) 97 (by decide) [121] [120]
      simp [ssusb_drivers_detect_select, ssusb_drivers_list_get, ssusb_drivers_detect_walk,
        ssusb_drivers_select, ssusb_drivers_deselect, _drivers_get, _drivers_get_walk,
        shared_head_config, session, descriptor, fixed_driver, strncmp_self, h,
        List.replicate_succ]

/-- C19, amended: take an initialized session whose registry starts with an
entry `x` of non-empty name, in which driver `X` is active and `X.deinit`
returns nonzero.  The first select attempt of `ssusb_drivers_detect_select`,
the one for `x`, fails with `SSUSB_DESELECT_DEINIT_ERROR` after the one call
`X.deinit`, never reaching an `init`, and clears the active driver; the
detection is then the walk over the remaining entries `l`, from the second on;
every lifecycle call after `X.deinit` is the `init` of a driver that a name of
`l` resolves to, so `init` is invoked on the first entry's driver only when a
later name resolves to it, and on no driver that no later name resolves to.
So a later entry may be selected, or `SSUSB_SELECT_NOT_FOUND` returned,
although the `init` of the first entry succeeds: with "a" (whose `deinit`
fails) active, `stubborn_config` ends with "b" active and
`stubborn_alone_config` with `SSUSB_SELECT_NOT_FOUND`. -/
theorem C19_detect_skips_first {W : Type} (cfg : Config W) (s : State W)
    (X : ssusb_device_driver_t W) (x : ssusb_driver_t) (l : List ssusb_driver_t)
    (hinit : s._initialized = true) (hactive : s._device_driver = some X)
    (hfail : (X.deinit s.world).1 ≠ 0)
    (hlist : s._driver_list = x :: l) (hname : x.name.headD 0 ≠ 0) :
    ssusb_drivers_select cfg (some x.name) s
      = some (SSUSB_DESELECT_DEINIT_ERROR,
          { s with _device_driver := none, world := (X.deinit s.world).2,
                   calls := s.calls ++ [Call.deinit X] }) ∧
    ssusb_drivers_detect_select cfg s
      = ssusb_drivers_detect_walk cfg l
          { s with _device_driver := none, world := (X.deinit s.world).2,
                   calls := s.calls ++ [Call.deinit X] } ∧
    (∃ (ret : ssusb_ret_t) (s1 : State W) (tail : List (Call W)),
      ssusb_drivers_detect_select cfg s = some (ret, s1) ∧
      s1.calls = s.calls ++ Call.deinit X :: tail ∧
      (∀ c ∈ tail, ∃ y ∈ l, ∃ d, _drivers_get cfg y.name = some d ∧ c = Call.init d) ∧
      (∀ a, (∀ y ∈ l, _drivers_get cfg y.name ≠ some a) → Call.init a ∉ tail)) ∧
    (((fixed_driver [97] 0 1).init ()).1 = 0 ∧
      ssusb_drivers_detect_select stubborn_config
          (session stubborn_config (some (fixed_driver [97] 0 1)))
        = some (SSUSB_OK,
            { session stubborn_config none with
                _device_driver := some (fixed_driver [98] 0 0),
                calls := [Call.deinit (fixed_driver [97] 0 1),
                  Call.init (fixed_driver [98] 0 0)] }) ∧
      ssusb_drivers_detect_select stubborn_alone_config
          (session stubborn_alone_config (some (fixed_driver [97] 0 1)))
        = some (SSUSB_SELECT_NOT_FOUND,
            { session stubborn_alone_config none with
                calls := [Call.deinit (fixed_driver [97] 0 1),
                  Call.init (fixed_driver [98] 1 0), Call.init (fixed_driver [99] 1 0),
                  Call.init (fixed_driver [100] 1 0)] })) := by
  have hname1 : (x.name.head?).getD 0 ≠ 0 := by
    simpa only [List.headD_eq_head?_getD] using hname
  have hsel : ssusb_drivers_select cfg (some x.name) s
      = some (SSUSB_DESELECT_DEINIT_ERROR,
          { s with _device_driver := none, world := (X.deinit s.world).2,
                   calls := s.calls ++ [Call.deinit X] }) := by
    simp [ssusb_drivers_select, ssusb_drivers_deselect, hinit, hactive, hfail, hname1]
  have hget : ssusb_drivers_list_get true s = some (SSUSB_OK, s._driver_list, s) := by
    simp [ssusb_drivers_list_get, hinit]
  have hds : ssusb_drivers_detect_select cfg s
      = ssusb_drivers_detect_walk cfg l
          { s with _device_driver := none, world := (X.deinit s.world).2,
                   calls := s.calls ++ [Call.deinit X] } := by
    have hstart : ssusb_drivers_detect_select cfg s
        = ssusb_drivers_detect_walk cfg (x :: l) s := by
      unfold ssusb_drivers_detect_select
      rw [hget]
      exact congrArg (fun r => ssusb_drivers_detect_walk cfg r s) hlist
    rw [hstart]
    simp only [ssusb_drivers_detect_walk]
    rw [hsel]
    simp
  refine ⟨hsel, hds, ?_, ?_⟩
  · obtain ⟨r, t1, tail, hw, hcalls, hall⟩ := detect_walk_calls_idle cfg l
      { s with _device_driver := none, world := (X.deinit s.world).2,
               calls := s.calls ++ [Call.deinit X] } hinit rfl
    refine ⟨r, t1, tail, by rw [hds]; exact hw, by simpa using hcalls, hall, ?_⟩
    intro a hnot hmem
    obtain ⟨y, hy, d, hg, hcd⟩ := hall _ hmem
    have had : a = d := by
      injection hcd
    subst had
    exact hnot y hy hg
  · refine ⟨rfl, ?_, ?_⟩
    · simp [ssusb_drivers_detect_select, ssusb_drivers_list_get, ssusb_drivers_detect_walk,
        ssusb_drivers_select, ssusb_drivers_deselect, _drivers_get, _drivers_get_walk,
        stubborn_config, reference_config, session, descriptor, fixed_driver, strncmp]
    · simp [ssusb_drivers_detect_select, ssusb_drivers_list_get, ssusb_drivers_detect_walk,
        ssusb_drivers_select, ssusb_drivers_deselect, _drivers_get, _drivers_get_walk,
        stubborn_alone_config, reference_config, session, descriptor, fixed_driver, strncmp]

/-- Witness of the amended C19: `stubborn_config` with "a", whose `deinit` fails, active. -/
theorem C19_detect_skips_first_witness :
    ssusb_drivers_select stubborn_config (some (descriptor (fixed_driver [97] 0 1)).name)
        (session stubborn_config (some (fixed_driver [97] 0 1)))
      = some (SSUSB_DESELECT_DEINIT_ERROR,
          { session stubborn_config (some (fixed_driver [97] 0 1)) with
              _device_driver := none, world := ((fixed_driver [97] 0 1).deinit ()).2,
              calls := [] ++ [Call.deinit (fixed_driver [97] 0 1)] }) ∧
    ssusb_drivers_detect_select stubborn_config
        (session stubborn_config (some (fixed_driver [97] 0 1)))
      = ssusb_drivers_detect_walk stubborn_config
          ([fixed_driver [98] 0 0, fixed_driver [99] 0 0, fixed_driver [100] 0 0].map
            descriptor)
          { session stubborn_config (some (fixed_driver [97] 0 1)) with
              _device_driver := none, world := ((fixed_driver [97] 0 1).deinit ()).2,
              calls := [] ++ [Call.deinit (fixed_driver [97] 0 1)] } ∧
    (∃ (ret : ssusb_ret_t) (s1 : State Unit) (tail : List (Call Unit)),
      ssusb_drivers_detect_select stubborn_config
          (session stubborn_config (some (fixed_driver [97] 0 1))) = some (ret, s1) ∧
      s1.calls = [] ++ Call.deinit (fixed_driver [97] 0 1) :: tail ∧
      (∀ c ∈ tail,
        ∃ y ∈ [fixed_driver [98] 0 0, fixed_driver [99] 0 0, fixed_driver [100] 0 0].map
            descriptor,
          ∃ d, _drivers_get stubborn_config y.name = some d ∧ c = Call.init d) ∧
      (∀ a,
        (∀ y ∈ [fixed_driver [98] 0 0, fixed_driver [99] 0 0, fixed_driver [100] 0 0].map
            descriptor, _drivers_get stubborn_config y.name ≠ some a) →
        Call.init a ∉ tail)) ∧
    (((fixed_driver [97] 0 1).init ()).1 = 0 ∧
      ssusb_drivers_detect_select stubborn_config
          (session stubborn_config (some (fixed_driver [97] 0 1)))
        = some (SSUSB_OK,
            { session stubborn_config none with
                _device_driver := some (fixed_driver [98] 0 0),
                calls := [Call.deinit (fixed_driver [97] 0 1),
                  Call.init (fixed_driver [98] 0 0)] }) ∧
      ssusb_drivers_detect_select stubborn_alone_config
          (session stubborn_alone_config (some (fixed_driver [97] 0 1)))
        = some (SSUSB_SELECT_NOT_FOUND,
            { session stubborn_alone_config none with
                calls := [Call.deinit (fixed_driver [97] 0 1),
                  Call.init (fixed_driver [98] 1 0), Call.init (fixed_driver [99] 1 0),
                  Call.init (fixed_driver [100] 1 0)] })) :=
  C19_detect_skips_first stubborn_config
    (session stubborn_config (some (fixed_driver [97] 0 1)))
    (fixed_driver [97] 0 1) (descriptor (fixed_driver [97] 0 1))
    ([fixed_driver [98] 0 0, fixed_driver [99] 0 0, fixed_driver [100] 0 0].map descriptor)
    rfl rfl (by decide) rfl (by decide)

end Ssusb
